import Mathlib

/-!
Shallow embedding of the mcp-databricks-server repository (src/main.py) and
proofs about its handlers. Python strings are modelled as lists of characters,
Python dictionaries of string values as association lists, remote responses as
explicit oracle arguments, and side effects (SQL statements, HTTP requests) as
an explicit event list returned next to each result. A Python function that can
raise an uncaught exception returns an Except value whose error component is
the str rendering of the exception; a handler whose whole body sits inside a
try/except block returns a plain string.
-/

/-- Python str, modelled as a list of characters. -/
abbrev PyStr := List Char

/-- Conversion from a Lean string literal to the PyStr model. -/
def pStr (s : String) : PyStr := s.data

/-- Python truthiness of an optional string (None and the empty string are falsy). -/
def pyTruthy : Option PyStr → Bool
  | none => false
  | some s => !s.isEmpty

/-- Python dictionary with string keys and string values. -/
abbrev PyDict := List (PyStr × PyStr)

/-- Python truthiness of an optional dictionary (None and the empty dict are falsy). -/
def pyTruthyDict : Option PyDict → Bool
  | none => false
  | some d => !d.isEmpty

/-- Python truthiness of an optional integer (None and 0 are falsy). -/
def pyTruthyInt : Option Int → Bool
  | none => false
  | some n => n != 0

/-- Python truthiness of an optional nonnegative integer (None and 0 are falsy). -/
def pyTruthyNat : Option Nat → Bool
  | none => false
  | some n => n != 0

/-- Python truthiness of an optional list of strings (None and the empty list are falsy). -/
def pyTruthyList : Option (List PyStr) → Bool
  | none => false
  | some l => !l.isEmpty

/-- Python str.upper. -/
def pyUpper (s : PyStr) : PyStr := s.map Char.toUpper

/-- Python sep.join. -/
def pyJoin (sep : PyStr) : List PyStr → PyStr
  | [] => []
  | [x] => x
  | x :: y :: rest => x ++ sep ++ pyJoin sep (y :: rest)

/-- Python str.splitlines for newline-separated text: splits on the newline
character and drops a final empty fragment coming from a trailing newline. -/
def pySplitLines : List Char → List (List Char)
  | [] => []
  | c :: rest =>
    if c = '\n' then [] :: pySplitLines rest
    else
      match pySplitLines rest with
      | [] => [[c]]
      | l :: ls => (c :: l) :: ls

/-- Decimal digits of a natural number, with structural fuel so that the kernel
can evaluate it. -/
def natDigits : Nat → Nat → PyStr
  | 0, _ => []
  | fuel + 1, n => if n < 10 then [Nat.digitChar n] else natDigits fuel (n / 10) ++ [Nat.digitChar (n % 10)]

/-- Decimal rendering of a natural number. -/
def natToPyStr (n : Nat) : PyStr := natDigits (n + 1) n

/-- Python str(int). -/
def pyIntRepr : Int → PyStr
  | .ofNat n => natToPyStr n
  | .negSucc n => '-' :: natToPyStr (n + 1)

/-- Python dict.get for string-valued dictionaries. -/
def py_dict_get (d : PyDict) (k : PyStr) : Option PyStr :=
  (d.find? (fun kv => kv.1 == k)).map Prod.snd

/-- Python str.endswith. -/
def py_endswith (s suffix : PyStr) : Bool := suffix.isSuffixOf s

/-- The three environment values read at startup (src/main.py lines 16 to 18):
DATABRICKS_HOST, DATABRICKS_TOKEN, DATABRICKS_HTTP_PATH. A missing variable is
none; note that an empty string is falsy for the truthiness checks. -/
structure Config where
  databricks_host : Option PyStr
  databricks_token : Option PyStr
  databricks_http_path : Option PyStr

/-- Observable side effects of a handler invocation: SQL connection management,
SQL statements, and outbound HTTP requests identified by their URL. -/
inductive Eff where
  | sqlConnect (handle : Nat)
  | sqlExec (stmt : PyStr)
  | sqlTables
  | sqlClose (handle : Nat)
  | httpGet (url : PyStr)
  | httpPost (url : PyStr)
deriving DecidableEq

instance {ε α : Type} [DecidableEq ε] [DecidableEq α] : DecidableEq (Except ε α) := fun a b =>
  match a, b with
  | .error e1, .error e2 => decidable_of_iff (e1 = e2) (by simp)
  | .ok v1, .ok v2 => decidable_of_iff (v1 = v2) (by simp)
  | .error _, .ok _ => isFalse (fun hh => Except.noConfusion hh)
  | .ok _, .error _ => isFalse (fun hh => Except.noConfusion hh)

/-- Message of the ValueError raised by get_databricks_connection (line 28). -/
def missing_conn_msg : PyStr := pStr "Missing required Databricks connection details in .env file"

/-- Embedding of get_databricks_connection (src/main.py lines 25 to 34). The
function checks the three configuration values and otherwise creates and
returns a fresh connection; the fresh handle the databricks.sql library would
produce is passed in as an argument. There is no module level connection state
in the source: nothing is cached, probed, or reused. -/
def get_databricks_connection (cfg : Config) (fresh : Nat) : Except PyStr Nat × List Eff :=
  if pyTruthy cfg.databricks_host && pyTruthy cfg.databricks_token && pyTruthy cfg.databricks_http_path then
    (.ok fresh, [.sqlConnect fresh])
  else
    (.error missing_conn_msg, [])

/-- An HTTP response as seen by the requests library after transport succeeds:
status code, reason phrase, and the decoded JSON body. -/
structure HttpResp (α : Type) where
  status : Nat
  reason : PyStr
  body : α

/-- Embedding of response.raise_for_status followed by response.json: the
requests library raises HTTPError for status codes 400 to 599, rendering the
message from the status code, the reason phrase and the URL. -/
def raise_for_status {α : Type} (resp : HttpResp α) (url : PyStr) : Except PyStr α :=
  if 400 ≤ resp.status ∧ resp.status < 500 then
    .error (natToPyStr resp.status ++ pStr " Client Error: " ++ resp.reason ++ pStr " for url: " ++ url)
  else if 500 ≤ resp.status ∧ resp.status < 600 then
    .error (natToPyStr resp.status ++ pStr " Server Error: " ++ resp.reason ++ pStr " for url: " ++ url)
  else
    .ok resp.body

/-- Message of the ValueError raised by databricks_api_request (line 40). -/
def missing_creds_msg : PyStr := pStr "Missing required Databricks API credentials in .env file"

/-- Embedding of databricks_api_request (src/main.py lines 37 to 57). The
transport outcome is an oracle argument: an error value models a requests
exception (connection failure, timeout) raised by requests.get or
requests.post, and an ok value carries the HTTP response. Exactly one request
is issued for GET and POST and nothing is retried; any raised exception
propagates to the caller uncaught. -/
def databricks_api_request {α : Type} (cfg : Config) (endpoint : PyStr) (method : PyStr)
    (tr : Except PyStr (HttpResp α)) : Except PyStr α × List Eff :=
  if pyTruthy cfg.databricks_host && pyTruthy cfg.databricks_token then
    let url := pStr "https://" ++ cfg.databricks_host.getD [] ++ pStr "/api/2.0/" ++ endpoint
    if pyUpper method = pStr "GET" then
      match tr with
      | .error e => (.error e, [.httpGet url])
      | .ok resp => (raise_for_status resp url, [.httpGet url])
    else if pyUpper method = pStr "POST" then
      match tr with
      | .error e => (.error e, [.httpPost url])
      | .ok resp => (raise_for_status resp url, [.httpPost url])
    else
      (.error (pStr "Unsupported HTTP method: " ++ method), [])
  else
    (.error missing_creds_msg, [])

/-- Result of cursor.execute as used by run_sql_query: cursor.description
(empty models both None and an empty column list, which are equally falsy) and
the fetched rows with each cell already rendered by str. -/
structure QueryResult where
  description : List PyStr
  rows : List (List PyStr)

/-- The sentinel returned by run_sql_query at lines 96 and 107. -/
def no_results_msg : PyStr := pStr "Query executed successfully. No results returned."

/-- One markdown table line without its newline, as built at lines 99 to 103. -/
def md_cells (cells : List PyStr) : PyStr :=
  pStr "| " ++ pyJoin (pStr " | ") cells ++ pStr " |"

/-- One markdown table line including its trailing newline. -/
def md_row (cells : List PyStr) : PyStr := md_cells cells ++ pStr "\n"

/-- Embedding of run_sql_query (src/main.py lines 78 to 112). The connection is
acquired before the try block, so a configuration ValueError escapes the
handler; everything after that is inside try/except/finally, so the body never
raises and the connection is closed exactly once on every path. The outcome of
cursor.execute is the oracle argument qres (an error models a raised database
exception). -/
def run_sql_query (cfg : Config) (sql : PyStr) (fresh : Nat)
    (qres : Except PyStr QueryResult) : Except PyStr PyStr × List Eff :=
  match get_databricks_connection cfg fresh with
  | (.error e, effs) => (.error e, effs)
  | (.ok conn, effs) =>
    let body : PyStr :=
      match qres with
      | .error e => pStr "Error executing query: " ++ e
      | .ok r =>
        if !r.description.isEmpty then
          if r.rows.isEmpty then no_results_msg
          else
            md_row r.description
              ++ md_row (r.description.map (fun _ => pStr "---"))
              ++ (r.rows.map md_row).flatten
        else
          no_results_msg
    (.ok body, effs ++ [.sqlExec sql] ++ [.sqlClose conn])

/-- One row of cursor.tables as used by get_schema: TABLE_CAT, TABLE_SCHEM and
TABLE_NAME attributes. -/
structure TableRow where
  table_cat : PyStr
  table_schem : PyStr
  table_name : PyStr

/-- Embedding of the get_schema resource (src/main.py lines 59 to 76). As in
run_sql_query the connection is acquired before the try block, so the
configuration ValueError escapes; the body is wrapped in try/except/finally
with the close in finally. The outcome of cursor.tables().fetchall() is the
oracle argument tres. -/
def get_schema (cfg : Config) (fresh : Nat)
    (tres : Except PyStr (List TableRow)) : Except PyStr PyStr × List Eff :=
  match get_databricks_connection cfg fresh with
  | (.error e, effs) => (.error e, effs)
  | (.ok conn, effs) =>
    let body : PyStr :=
      match tres with
      | .error e => pStr "Error retrieving tables: " ++ e
      | .ok tables =>
        pyJoin (pStr "\n") (tables.map (fun t =>
          pStr "Database: " ++ t.table_cat ++ pStr ", Schema: " ++ t.table_schem
            ++ pStr ", Table: " ++ t.table_name))
    (.ok body, effs ++ [.sqlTables] ++ [.sqlClose conn])

/-- The decoded JSON body of a jobs/create response, projected to the one field
create_job reads (line 210). -/
structure CreateJobResp where
  job_id : Option Int

/-- The settings dictionary assembled by create_job (lines 169 to 204). An
absent optional key is none; the notebook_task value, a one-key dictionary
holding the notebook path, is represented by that path. -/
structure JobSettings where
  name : PyStr
  existing_cluster_id : Option PyStr := none
  new_cluster : Option PyDict := none
  notebook_task : Option PyStr := none
  spark_jar_task : Option PyDict := none
  spark_python_task : Option PyDict := none
  schedule : Option PyDict := none
  timeout_seconds : Option Int := none
  max_concurrent_runs : Option Int := none
  max_retries : Option Int := none
deriving DecidableEq

/-- The payload create_job hands to databricks_api_request (line 207). -/
structure CreateJobRequest where
  name : PyStr
  settings : JobSettings
deriving DecidableEq

/-- Error string returned at line 179 when no cluster is specified. -/
def cluster_err_msg : PyStr := pStr "Error: Either cluster_id or new_cluster must be specified."

/-- Error string returned at line 194 when no task type is specified. -/
def task_err_msg : PyStr := pStr "Error: You must specify a task type (notebook_path, spark_jar_task, or spark_python_task)."

/-- The settings-assembling prefix of create_job (src/main.py lines 169 to
204): cluster selection, mutually exclusive task selection via the task_set
flag, and the optional fields. The two early validation returns are the error
cases. -/
def create_job_settings (name : PyStr) (cluster_id : Option PyStr) (new_cluster : Option PyDict)
    (notebook_path : Option PyStr) (spark_jar_task : Option PyDict) (spark_python_task : Option PyDict)
    (schedule : Option PyDict) (timeout_seconds : Option Int) (max_concurrent_runs : Option Int)
    (max_retries : Option Int) : Except PyStr JobSettings :=
  let s0 : JobSettings := { name := name }
  let s1opt : Option JobSettings :=
    if pyTruthy cluster_id then some { s0 with existing_cluster_id := cluster_id }
    else if pyTruthyDict new_cluster then some { s0 with new_cluster := new_cluster }
    else none
  match s1opt with
  | none => .error cluster_err_msg
  | some s1 =>
    let p1 := if pyTruthy notebook_path then ({ s1 with notebook_task := notebook_path }, true) else (s1, false)
    let p2 := if pyTruthyDict spark_jar_task && !p1.2 then ({ p1.1 with spark_jar_task := spark_jar_task }, true) else p1
    let p3 := if pyTruthyDict spark_python_task && !p2.2 then ({ p2.1 with spark_python_task := spark_python_task }, true) else p2
    if !p3.2 then .error task_err_msg
    else
      let s5 := if pyTruthyDict schedule then { p3.1 with schedule := schedule } else p3.1
      let s6 := if pyTruthyInt timeout_seconds then { s5 with timeout_seconds := timeout_seconds } else s5
      let s7 := if pyTruthyInt max_concurrent_runs then { s6 with max_concurrent_runs := max_concurrent_runs } else s6
      let s8 := if pyTruthyInt max_retries then { s7 with max_retries := max_retries } else s7
      .ok s8

/-- Embedding of create_job (src/main.py lines 140 to 217). The whole body is
inside try/except, so the handler always returns a string. The third component
of the result is the payload handed to databricks_api_request, or none when the
early validation returns before the payload is built. -/
def create_job (cfg : Config) (name : PyStr) (cluster_id : Option PyStr) (new_cluster : Option PyDict)
    (notebook_path : Option PyStr) (spark_jar_task : Option PyDict) (spark_python_task : Option PyDict)
    (schedule : Option PyDict) (timeout_seconds : Option Int) (max_concurrent_runs : Option Int)
    (max_retries : Option Int) (tr : Except PyStr (HttpResp CreateJobResp)) :
    PyStr × List Eff × Option CreateJobRequest :=
  match create_job_settings name cluster_id new_cluster notebook_path spark_jar_task
      spark_python_task schedule timeout_seconds max_concurrent_runs max_retries with
  | .error msg => (msg, [], none)
  | .ok s8 =>
    let req : CreateJobRequest := { name := name, settings := s8 }
    match databricks_api_request cfg (pStr "jobs/create") (pStr "POST") tr with
    | (.error e, effs) => (pStr "Error creating job: " ++ e, effs, some req)
    | (.ok resp, effs) =>
      if pyTruthyInt resp.job_id then
        let j := resp.job_id.getD 0
        (pStr "Job created successfully with job ID: " ++ pyIntRepr j
          ++ pStr "\n\nYou can view job details with: get_job_details(" ++ pyIntRepr j ++ pStr ")",
          effs, some req)
      else
        (pStr "Job creation failed. No job ID returned.", effs, some req)

/-- The decoded JSON body of a jobs/get response, projected to the fields
get_job_details reads: settings.name, settings.tasks, created_time (with the
source default 0) and creator_user_name. -/
structure JobDetailsResp where
  settings_name : Option PyStr
  settings_tasks : List PyDict
  created_time : Nat
  creator_user_name : Option PyStr

/-- Embedding of get_job_details (src/main.py lines 258 to 294). The whole body
is inside try/except, so the handler always returns a string. fmtTime stands
for the datetime library rendering of a millisecond timestamp used at
line 270. -/
def get_job_details (cfg : Config) (job_id : Int) (tr : Except PyStr (HttpResp JobDetailsResp))
    (fmtTime : Nat → PyStr) : PyStr × List Eff :=
  match databricks_api_request cfg (pStr "jobs/get?job_id=" ++ pyIntRepr job_id) (pStr "GET") tr with
  | (.error e, effs) => (pStr "Error getting job details: " ++ e, effs)
  | (.ok resp, effs) =>
    let job_name := resp.settings_name.getD (pStr "N/A")
    let created_time_str := if resp.created_time != 0 then fmtTime resp.created_time else pStr "N/A"
    let tasks := resp.settings_tasks
    let head := pStr "## Job Details: " ++ job_name ++ pStr "\n\n"
      ++ pStr "- **Job ID:** " ++ pyIntRepr job_id ++ pStr "\n"
      ++ pStr "- **Created:** " ++ created_time_str ++ pStr "\n"
      ++ pStr "- **Creator:** " ++ resp.creator_user_name.getD (pStr "N/A") ++ pStr "\n\n"
    let result :=
      if tasks.isEmpty then head
      else
        head ++ pStr "### Tasks:\n\n"
          ++ pStr "| Task Key | Task Type | Description |\n"
          ++ pStr "| -------- | --------- | ----------- |\n"
          ++ (tasks.map (fun t =>
              pStr "| " ++ (py_dict_get t (pStr "task_key")).getD (pStr "N/A")
                ++ pStr " | " ++ (((t.map Prod.fst).filter (fun k => py_endswith k (pStr "_task"))).headD (pStr "N/A"))
                ++ pStr " | " ++ (py_dict_get t (pStr "description")).getD (pStr "N/A")
                ++ pStr " |\n")).flatten
    (result, effs)

/-- The request data assembled by create_instance_pool (lines 513 to 523). -/
structure PoolRequest where
  instance_pool_name : PyStr
  node_type_id : PyStr
  min_idle_instances : Int
  max_capacity : Int
  idle_instance_autotermination_minutes : Int
  preloaded_spark_versions : Option (List PyStr) := none

/-- The decoded JSON body of an instance-pools/create response, projected to
the one field create_instance_pool reads (line 529). -/
structure PoolResp where
  instance_pool_id : Option PyStr

/-- Embedding of create_instance_pool (src/main.py lines 492 to 536). The whole
body is inside try/except; the third component is the request payload handed to
databricks_api_request. -/
def create_instance_pool (cfg : Config) (name : PyStr) (node_type_id : PyStr)
    (min_idle_instances : Int) (max_capacity : Int) (idle_instance_autotermination_minutes : Int)
    (preload_spark_versions : Option (List PyStr)) (tr : Except PyStr (HttpResp PoolResp)) :
    PyStr × List Eff × Option PoolRequest :=
  let data0 : PoolRequest :=
    { instance_pool_name := name, node_type_id := node_type_id,
      min_idle_instances := min_idle_instances, max_capacity := max_capacity,
      idle_instance_autotermination_minutes := idle_instance_autotermination_minutes }
  let data := if pyTruthyList preload_spark_versions then
      { data0 with preloaded_spark_versions := preload_spark_versions }
    else data0
  match databricks_api_request cfg (pStr "instance-pools/create") (pStr "POST") tr with
  | (.error e, effs) => (pStr "Error creating instance pool: " ++ e, effs, some data)
  | (.ok resp, effs) =>
    if pyTruthy resp.instance_pool_id then
      (pStr "Instance pool created successfully with ID: " ++ resp.instance_pool_id.getD [], effs, some data)
    else
      (pStr "Instance pool creation failed. No pool ID returned.", effs, some data)

/-- The request data assembled by create_catalog (lines 885 to 893). -/
structure CatalogRequest where
  name : PyStr
  comment : Option PyStr := none
  properties : Option PyDict := none

/-- The decoded JSON body of a unity-catalog/catalogs creation response,
projected to the one field create_catalog reads (line 899). -/
structure CatalogResp where
  name : Option PyStr

/-- Embedding of create_catalog (src/main.py lines 874 to 904). The whole body
is inside try/except; the third component is the request payload. -/
def create_catalog (cfg : Config) (name : PyStr) (comment : Option PyStr) (properties : Option PyDict)
    (tr : Except PyStr (HttpResp CatalogResp)) : PyStr × List Eff × Option CatalogRequest :=
  let data0 : CatalogRequest := { name := name }
  let data1 := if pyTruthy comment then { data0 with comment := comment } else data0
  let data := if pyTruthyDict properties then { data1 with properties := properties } else data1
  match databricks_api_request cfg (pStr "unity-catalog/catalogs") (pStr "POST") tr with
  | (.error e, effs) => (pStr "Error creating catalog: " ++ e, effs, some data)
  | (.ok resp, effs) =>
    if resp.name = some name then
      (pStr "Catalog \x27" ++ name ++ pStr "\x27 was created successfully.", effs, some data)
    else
      (pStr "Catalog creation might have failed. Please check with list_catalogs().", effs, some data)

/-- The request data assembled by create_schema (lines 917 to 927). -/
structure SchemaRequest where
  name : PyStr
  catalog_name : PyStr
  comment : Option PyStr := none
  properties : Option PyDict := none

/-- The decoded JSON body of a unity-catalog/schemas creation response,
projected to the two fields create_schema reads (line 933). -/
structure SchemaResp where
  name : Option PyStr
  catalog_name : Option PyStr

/-- Embedding of create_schema (src/main.py lines 906 to 938). The whole body
is inside try/except; the third component is the request payload. -/
def create_schema (cfg : Config) (catalog_name : PyStr) (schema_name : PyStr)
    (comment : Option PyStr) (properties : Option PyDict)
    (tr : Except PyStr (HttpResp SchemaResp)) : PyStr × List Eff × Option SchemaRequest :=
  let data0 : SchemaRequest := { name := schema_name, catalog_name := catalog_name }
  let data1 := if pyTruthy comment then { data0 with comment := comment } else data0
  let data := if pyTruthyDict properties then { data1 with properties := properties } else data1
  match databricks_api_request cfg (pStr "unity-catalog/schemas") (pStr "POST") tr with
  | (.error e, effs) => (pStr "Error creating schema: " ++ e, effs, some data)
  | (.ok resp, effs) =>
    if resp.name = some schema_name ∧ resp.catalog_name = some catalog_name then
      (pStr "Schema \x27" ++ catalog_name ++ pStr "." ++ schema_name ++ pStr "\x27 was created successfully.", effs, some data)
    else
      (pStr "Schema creation might have failed. Please check using another Unity Catalog API call.", effs, some data)

/-- The base64 alphabet used by base64.b64encode. -/
def b64_alphabet : PyStr := pStr "ABCDEFGHIJKLMNOPQRSTUVWXYZabcdefghijklmnopqrstuvwxyz0123456789+/"

/-- Character of one six-bit group. -/
def b64_char (n : Nat) : Char := b64_alphabet.getD n 'A'

/-- Index scan used to invert the base64 alphabet. -/
def b64_index_aux : PyStr → Nat → Char → Option Nat
  | [], _, _ => none
  | a :: rest, i, c => if a = c then some i else b64_index_aux rest (i + 1) c

/-- Position of a character in the base64 alphabet. -/
def b64_index (c : Char) : Option Nat := b64_index_aux b64_alphabet 0 c

/-- Embedding of base64.b64encode on a byte sequence, producing the padded
text rendering (the source immediately decodes the result as ASCII text). -/
def b64encode : List Nat → PyStr
  | [] => []
  | [b1] => [b64_char (b1 / 4), b64_char (b1 % 4 * 16), '=', '=']
  | [b1, b2] => [b64_char (b1 / 4), b64_char (b1 % 4 * 16 + b2 / 16), b64_char (b2 % 16 * 4), '=']
  | b1 :: b2 :: b3 :: rest =>
    b64_char (b1 / 4) :: b64_char (b1 % 4 * 16 + b2 / 16)
      :: b64_char (b2 % 16 * 4 + b3 / 64) :: b64_char (b3 % 64) :: b64encode rest

/-- Embedding of base64.b64decode on well-formed padded base64 text; malformed
input yields none, modelling a raised binascii error. -/
def b64decode : PyStr → Option (List Nat)
  | [] => some []
  | c1 :: c2 :: c3 :: c4 :: rest =>
    match b64_index c1, b64_index c2 with
    | some n1, some n2 =>
      if c3 = '=' then
        if c4 = '=' ∧ rest = [] then some [n1 * 4 + n2 / 16] else none
      else
        match b64_index c3 with
        | some n3 =>
          if c4 = '=' then
            if rest = [] then some [n1 * 4 + n2 / 16, n2 % 16 * 16 + n3 / 4] else none
          else
            match b64_index c4, b64decode rest with
            | some n4, some tl => some ((n1 * 4 + n2 / 16) :: (n2 % 16 * 16 + n3 / 4) :: (n3 % 4 * 64 + n4) :: tl)
            | _, _ => none
        | none => none
    | _, _ => none
  | _ => none

/-- UTF-8 encoding of one Unicode code point, as str.encode produces it. -/
def utf8_encode_char (cp : Nat) : List Nat :=
  if cp < 128 then [cp]
  else if cp < 2048 then [192 + cp / 64, 128 + cp % 64]
  else if cp < 65536 then [224 + cp / 4096, 128 + cp / 64 % 64, 128 + cp % 64]
  else [240 + cp / 262144, 128 + cp / 4096 % 64, 128 + cp / 64 % 64, 128 + cp % 64]

/-- UTF-8 encoding of a sequence of code points (Python str.encode with the
utf-8 codec; the string is its list of code points). -/
def utf8_encode (cps : List Nat) : List Nat := (cps.map utf8_encode_char).flatten

/-- A byte in the continuation range of UTF-8. -/
def is_cont (b : Nat) : Bool := 128 ≤ b && b < 192

/-- Decoding of one UTF-8 sequence starting with lead byte b followed by rest:
yields the code point and the remaining bytes, or none on a malformed prefix
(stray continuation byte, overlong form, surrogate, out-of-range value or
truncated sequence). -/
def utf8_step (b : Nat) (rest : List Nat) : Option (Nat × List Nat) :=
  if b < 128 then some (b, rest)
  else if b < 194 then none
  else if b < 224 then
    match rest with
    | b2 :: rest2 => if is_cont b2 then some ((b - 192) * 64 + (b2 - 128), rest2) else none
    | [] => none
  else if b < 240 then
    match rest with
    | b2 :: b3 :: rest3 =>
      if is_cont b2 && is_cont b3 then
        let cp := (b - 224) * 4096 + (b2 - 128) * 64 + (b3 - 128)
        if 2048 ≤ cp ∧ ¬(55296 ≤ cp ∧ cp < 57344) then some (cp, rest3) else none
      else none
    | _ => none
  else if b < 245 then
    match rest with
    | b2 :: b3 :: b4 :: rest4 =>
      if is_cont b2 && is_cont b3 && is_cont b4 then
        let cp := (b - 240) * 262144 + (b2 - 128) * 4096 + (b3 - 128) * 64 + (b4 - 128)
        if 65536 ≤ cp ∧ cp < 1114112 then some (cp, rest4) else none
      else none
    | _ => none
  else none

/-- Iteration of utf8_step with structural fuel; every step consumes at least
one byte, so fuel equal to the byte count is always sufficient. -/
def utf8_decode_fuel : Nat → List Nat → Option (List Nat)
  | _, [] => some []
  | 0, _ :: _ => none
  | fuel + 1, b :: rest =>
    match utf8_step b rest with
    | some (cp, rem) => (utf8_decode_fuel fuel rem).map (fun tl => cp :: tl)
    | none => none

/-- Strict UTF-8 decoding of a byte sequence, as bytes.decode with the utf-8
codec: overlong forms, surrogates, out-of-range values and truncated sequences
yield none, modelling a raised UnicodeDecodeError. -/
def utf8_decode (l : List Nat) : Option (List Nat) := utf8_decode_fuel l.length l

/-- A code point a Python str can hold: in Unicode range and not a surrogate. -/
def ValidCodepoint (cp : Nat) : Prop := cp < 1114112 ∧ (cp < 55296 ∨ 57344 ≤ cp)

instance (cp : Nat) : Decidable (ValidCodepoint cp) := by
  unfold ValidCodepoint; infer_instance

/-- Hexadecimal digit used by percent encoding. -/
def hex_digit (n : Nat) : Char := (pStr "0123456789ABCDEF").getD n '0'

/-- Percent encoding of one byte. -/
def percent_byte (b : Nat) : PyStr := ['%', hex_digit (b / 16), hex_digit (b % 16)]

/-- Characters urllib.parse.quote leaves unescaped with the default safe set. -/
def url_quote_safe (c : Char) : Bool :=
  ('A' ≤ c && c ≤ 'Z') || ('a' ≤ c && c ≤ 'z') || ('0' ≤ c && c ≤ '9')
    || c = '_' || c = '.' || c = '-' || c = '~' || c = '/'

/-- Embedding of urllib.parse.quote with the default safe set. -/
def url_quote (s : PyStr) : PyStr :=
  (s.map (fun c =>
    if url_quote_safe c then [c]
    else ((utf8_encode_char c.toNat).map percent_byte).flatten)).flatten

/-- The decoded JSON body of a dbfs/read response, projected to the one field
read_dbfs_file reads: the base64 text under the data key, or none when the key
is missing. -/
structure ReadResp where
  data : Option PyStr

/-- Stand-in for the str rendering of a binascii error raised by
base64.b64decode on malformed input; its exact text is library detail. -/
def invalid_base64_msg : PyStr := pStr "Invalid base64-encoded string"

/-- Stand-in for the str rendering of a UnicodeDecodeError raised by
bytes.decode on malformed UTF-8; its exact text is library detail. -/
def unicode_decode_err_msg : PyStr := pStr "invalid utf-8 sequence"

/-- Embedding of read_dbfs_file (src/main.py lines 589 to 622). The whole body
including the credential check is inside try/except, so the handler always
returns a string. The file content is decoded from base64 and then from UTF-8;
the resulting code points are rendered back into the returned message. -/
def read_dbfs_file (cfg : Config) (path : PyStr) (length : Nat)
    (tr : Except PyStr (HttpResp ReadResp)) : PyStr × List Eff :=
  if pyTruthy cfg.databricks_host && pyTruthy cfg.databricks_token then
    let url := pStr "https://" ++ cfg.databricks_host.getD [] ++ pStr "/api/2.0/dbfs/read?path="
      ++ url_quote path ++ pStr "&length=" ++ natToPyStr length
    match tr with
    | .error e => (pStr "Error reading DBFS file: " ++ e, [.httpGet url])
    | .ok resp =>
      match raise_for_status resp url with
      | .error e => (pStr "Error reading DBFS file: " ++ e, [.httpGet url])
      | .ok body =>
        match body.data with
        | none => (pStr "No data found in file " ++ path ++ pStr ".", [.httpGet url])
        | some d =>
          match b64decode d with
          | none => (pStr "Error reading DBFS file: " ++ invalid_base64_msg, [.httpGet url])
          | some bytes =>
            match utf8_decode bytes with
            | none => (pStr "Error reading DBFS file: " ++ unicode_decode_err_msg, [.httpGet url])
            | some cps =>
              (pStr "## File Contents: " ++ path ++ pStr "\n\n```\n"
                ++ cps.map Char.ofNat ++ pStr "\n```", [.httpGet url])
  else
    (pStr "Error reading DBFS file: " ++ missing_creds_msg, [])

/-- The decoded JSON body of a dbfs/create response, projected to the one field
upload_to_dbfs reads: the upload handle (line 655). -/
structure CreateFileResp where
  handle : Option Nat

/-- Embedding of upload_to_dbfs (src/main.py lines 624 to 685). The whole body
including the credential check is inside try/except, so the handler always
returns a string. The upload is the three-step create, add-block, close
sequence; the third component of the result is the base64 payload handed to the
add-block call, or none when that call is never reached. -/
def upload_to_dbfs (cfg : Config) (file_content : List Nat) (dbfs_path : PyStr) (overwrite : Bool)
    (trCreate : Except PyStr (HttpResp CreateFileResp)) (trAdd : Except PyStr (HttpResp Unit))
    (trClose : Except PyStr (HttpResp Unit)) : PyStr × List Eff × Option PyStr :=
  if pyTruthy cfg.databricks_host && pyTruthy cfg.databricks_token then
    let base := pStr "https://" ++ cfg.databricks_host.getD []
    let create_url := base ++ pStr "/api/2.0/dbfs/create"
    match trCreate with
    | .error e => (pStr "Error uploading to DBFS: " ++ e, [.httpPost create_url], none)
    | .ok cresp =>
      match raise_for_status cresp create_url with
      | .error e => (pStr "Error uploading to DBFS: " ++ e, [.httpPost create_url], none)
      | .ok cbody =>
        if pyTruthyNat cbody.handle then
          let content_bytes := utf8_encode file_content
          let encoded_content := b64encode content_bytes
          let add_url := base ++ pStr "/api/2.0/dbfs/add-block"
          match trAdd with
          | .error e => (pStr "Error uploading to DBFS: " ++ e,
              [.httpPost create_url, .httpPost add_url], some encoded_content)
          | .ok aresp =>
            match raise_for_status aresp add_url with
            | .error e => (pStr "Error uploading to DBFS: " ++ e,
                [.httpPost create_url, .httpPost add_url], some encoded_content)
            | .ok _ =>
              let close_url := base ++ pStr "/api/2.0/dbfs/close"
              match trClose with
              | .error e => (pStr "Error uploading to DBFS: " ++ e,
                  [.httpPost create_url, .httpPost add_url, .httpPost close_url], some encoded_content)
              | .ok clresp =>
                match raise_for_status clresp close_url with
                | .error e => (pStr "Error uploading to DBFS: " ++ e,
                    [.httpPost create_url, .httpPost add_url, .httpPost close_url], some encoded_content)
                | .ok _ =>
                  (pStr "Successfully uploaded content to " ++ dbfs_path
                    ++ pStr ".\n\nYou can view the file with: read_dbfs_file(\x27" ++ dbfs_path ++ pStr "\x27)",
                    [.httpPost create_url, .httpPost add_url, .httpPost close_url], some encoded_content)
        else
          (pStr "Error: Failed to create a handle for the file upload.", [.httpPost create_url], none)
  else
    (pStr "Error uploading to DBFS: " ++ missing_creds_msg, [], none)

/-- Remote DBFS behaviour assumed by the round-trip property: the store keeps
the bytes decoded from the base64 payload sent to add-block, and a read request
answers with the base64 rendering of the first length stored bytes under the
data key of a 200 response. -/
def dbfs_read_response_for (sent : PyStr) (length : Nat) : Except PyStr (HttpResp ReadResp) :=
  match b64decode sent with
  | some bytes => .ok { status := 200, reason := pStr "OK", body := { data := some (b64encode (bytes.take length)) } }
  | none => .ok { status := 200, reason := pStr "OK", body := { data := none } }

/-- True when a Python callable raised an uncaught exception in this model. -/
def raises_exception {ε α : Type} : Except ε α → Bool
  | .error _ => true
  | .ok _ => false

/-- A fully populated configuration used to instantiate theorems on concrete
inputs. -/
def cfgDemo : Config := ⟨some (pStr "example.com"), some (pStr "dapi123"), some (pStr "/sql/1.0/wh")⟩

/-- The configuration with all three environment values absent. -/
def cfgNone : Config := ⟨none, none, none⟩

theorem pySplitLines_append_newline (l : List Char) (s : List Char) (h : '\n' ∉ l) :
    pySplitLines (l ++ '\n' :: s) = l :: pySplitLines s := by
  induction l with
  | nil => simp [pySplitLines]
  | cons c l ih =>
    have hc : ¬ c = '\n' := fun hh => h (hh ▸ List.mem_cons_self c l)
    have h2 : '\n' ∉ l := fun hm => h (List.mem_cons_of_mem _ hm)
    simp only [List.cons_append, pySplitLines, if_neg hc, List.append_eq, ih h2]

theorem pySplitLines_flatten (ls : List PyStr) (h : ∀ r ∈ ls, '\n' ∉ r) :
    pySplitLines ((ls.map (fun r => r ++ pStr "\n")).flatten) = ls := by
  induction ls with
  | nil => simp [pySplitLines]
  | cons r rest ih =>
    have h1 : '\n' ∉ r := h r (by simp)
    have h2 : ∀ x ∈ rest, '\n' ∉ x := fun x hx => h x (by simp [hx])
    have hstep : (r ++ pStr "\n") ++ ((rest.map (fun x => x ++ pStr "\n")).flatten)
        = r ++ '\n' :: ((rest.map (fun x => x ++ pStr "\n")).flatten) := by
      simp [pStr]
    simp only [List.map_cons, List.flatten_cons, hstep,
      pySplitLines_append_newline _ _ h1, ih h2]

theorem pyJoin_mem {c : Char} : ∀ (sep : PyStr) (ps : List PyStr), c ∈ pyJoin sep ps → c ∈ sep ∨ ∃ p ∈ ps, c ∈ p
  | _, [], h => by simp [pyJoin] at h
  | _, [x], h => by exact Or.inr ⟨x, by simp, h⟩
  | sep, x :: y :: rest, h => by
    simp only [pyJoin, List.append_assoc, List.mem_append] at h
    rcases h with hx | hsep | hrest
    · exact Or.inr ⟨x, by simp, hx⟩
    · exact Or.inl hsep
    · rcases pyJoin_mem sep (y :: rest) hrest with hs | ⟨p, hp, hcp⟩
      · exact Or.inl hs
      · exact Or.inr ⟨p, List.mem_cons_of_mem _ hp, hcp⟩

theorem pyJoin_count (c : Char) (sep : PyStr) : ∀ (ps : List PyStr), ps ≠ [] → (∀ p ∈ ps, c ∉ p) →
    (pyJoin sep ps).count c = (ps.length - 1) * sep.count c
  | [], h, _ => absurd rfl h
  | [x], _, hp => by simp [pyJoin, List.count_eq_zero.mpr (hp x (by simp))]
  | x :: y :: rest, _, hp => by
    have hx : c ∉ x := hp x (by simp)
    have hrest : ∀ p ∈ y :: rest, c ∉ p := fun p h2 => hp p (List.mem_cons_of_mem _ h2)
    have ih := pyJoin_count c sep (y :: rest) (by simp) hrest
    simp only [pyJoin, List.count_append, List.count_eq_zero.mpr hx, ih]
    simp only [List.length_cons, Nat.add_sub_cancel]
    ring

theorem newline_not_mem_md_cells (cells : List PyStr) (h : ∀ p ∈ cells, '\n' ∉ p) :
    '\n' ∉ md_cells cells := by
  intro hmem
  simp only [md_cells, List.append_assoc, List.mem_append] at hmem
  rcases hmem with h1 | h2 | h3
  · exact absurd h1 (by decide)
  · rcases pyJoin_mem _ _ h2 with hs | ⟨p, hp, hcp⟩
    · exact absurd hs (by decide)
    · exact h p hp hcp
  · exact absurd h3 (by decide)

theorem md_cells_count_pipe (cells : List PyStr) (hne : cells ≠ []) (h : ∀ p ∈ cells, '|' ∉ p) :
    (md_cells cells).count '|' = cells.length + 1 := by
  have hlen : 0 < cells.length := List.length_pos.mpr hne
  simp only [md_cells, List.count_append, pyJoin_count '|' (pStr " | ") cells hne h]
  have h1 : (pStr "| ").count '|' = 1 := by decide
  have h2 : (pStr " |").count '|' = 1 := by decide
  have h3 : (pStr " | ").count '|' = 1 := by decide
  rw [h1, h2, h3]
  omega

theorem b64_index_b64_char : ∀ n, n < 64 → b64_index (b64_char n) = some n := by decide

theorem b64_char_ne_pad : ∀ n, n < 64 → b64_char n ≠ '=' := by decide

theorem b64decode_b64encode : ∀ (bs : List Nat), (∀ b ∈ bs, b < 256) → b64decode (b64encode bs) = some bs
  | [], _ => rfl
  | [b1], h => by
    have hb1 : b1 < 256 := h b1 (by simp)
    have k1 : b1 / 4 < 64 := by omega
    have k2 : b1 % 4 * 16 < 64 := by omega
    simp only [b64encode, b64decode, b64_index_b64_char _ k1, b64_index_b64_char _ k2]
    simp only [reduceIte, Option.some.injEq, List.cons.injEq, and_true]
    repeat' apply And.intro
    all_goals first | omega | trivial
  | [b1, b2], h => by
    have hb1 : b1 < 256 := h b1 (by simp)
    have hb2 : b2 < 256 := h b2 (by simp)
    have k1 : b1 / 4 < 64 := by omega
    have k2 : b1 % 4 * 16 + b2 / 16 < 64 := by omega
    have k3 : b2 % 16 * 4 < 64 := by omega
    simp only [b64encode, b64decode, b64_index_b64_char _ k1, b64_index_b64_char _ k2,
      b64_index_b64_char _ k3, if_neg (b64_char_ne_pad _ k3)]
    simp only [reduceIte, Option.some.injEq, List.cons.injEq, and_true]
    repeat' apply And.intro
    all_goals first | omega | trivial
  | b1 :: b2 :: b3 :: b4 :: bs, h => by
    have hb1 : b1 < 256 := h b1 (by simp)
    have hb2 : b2 < 256 := h b2 (by simp)
    have hb3 : b3 < 256 := h b3 (by simp)
    have hrest : ∀ b ∈ b4 :: bs, b < 256 := fun b hb => h b (by simp [hb])
    have k1 : b1 / 4 < 64 := by omega
    have k2 : b1 % 4 * 16 + b2 / 16 < 64 := by omega
    have k3 : b2 % 16 * 4 + b3 / 64 < 64 := by omega
    have k4 : b3 % 64 < 64 := by omega
    have ih := b64decode_b64encode (b4 :: bs) hrest
    simp only [b64encode, b64decode, b64_index_b64_char _ k1, b64_index_b64_char _ k2,
      b64_index_b64_char _ k3, b64_index_b64_char _ k4,
      if_neg (b64_char_ne_pad _ k3), if_neg (b64_char_ne_pad _ k4), ih]
    simp only [Option.some.injEq, List.cons.injEq]
    repeat' apply And.intro
    all_goals first | omega | trivial
  | [b1, b2, b3], h => by
    have hb1 : b1 < 256 := h b1 (by simp)
    have hb2 : b2 < 256 := h b2 (by simp)
    have hb3 : b3 < 256 := h b3 (by simp)
    have k1 : b1 / 4 < 64 := by omega
    have k2 : b1 % 4 * 16 + b2 / 16 < 64 := by omega
    have k3 : b2 % 16 * 4 + b3 / 64 < 64 := by omega
    have k4 : b3 % 64 < 64 := by omega
    simp only [b64encode, b64decode, b64_index_b64_char _ k1, b64_index_b64_char _ k2,
      b64_index_b64_char _ k3, b64_index_b64_char _ k4,
      if_neg (b64_char_ne_pad _ k3), if_neg (b64_char_ne_pad _ k4)]
    simp only [Option.some.injEq, List.cons.injEq]
    repeat' apply And.intro
    all_goals first | omega | trivial

theorem utf8_step_encode_char (cp : Nat) (X : List Nat) (h : ValidCodepoint cp) :
    ∃ b btail, utf8_encode_char cp = b :: btail ∧ utf8_step b (btail ++ X) = some (cp, X) := by
  obtain ⟨hlt, hsur⟩ := h
  by_cases h1 : cp < 128
  · refine ⟨cp, [], ?_, ?_⟩
    · simp [utf8_encode_char, h1]
    · simp [utf8_step, h1]
  · by_cases h2 : cp < 2048
    · have e1 : ¬ (192 + cp / 64 < 128) := by omega
      have e2 : ¬ (192 + cp / 64 < 194) := by omega
      have e3 : 192 + cp / 64 < 224 := by omega
      have ec : is_cont (128 + cp % 64) = true := by
        simp only [is_cont, Bool.and_eq_true, decide_eq_true_eq]
        omega
      refine ⟨192 + cp / 64, [128 + cp % 64], ?_, ?_⟩
      · simp [utf8_encode_char, h1, h2]
      · simp [utf8_step, e1, e2, e3, ec] <;> omega
    · by_cases h3 : cp < 65536
      · have e1 : ¬ (224 + cp / 4096 < 128) := by omega
        have e2 : ¬ (224 + cp / 4096 < 194) := by omega
        have e3 : ¬ (224 + cp / 4096 < 224) := by omega
        have e4 : 224 + cp / 4096 < 240 := by omega
        have ec2 : is_cont (128 + cp / 64 % 64) = true := by
          simp only [is_cont, Bool.and_eq_true, decide_eq_true_eq]
          omega
        have ec3 : is_cont (128 + cp % 64) = true := by
          simp only [is_cont, Bool.and_eq_true, decide_eq_true_eq]
          omega
        have hcond : 2048 ≤ (224 + cp / 4096 - 224) * 4096 + (128 + cp / 64 % 64 - 128) * 64 + (128 + cp % 64 - 128)
            ∧ ¬(55296 ≤ (224 + cp / 4096 - 224) * 4096 + (128 + cp / 64 % 64 - 128) * 64 + (128 + cp % 64 - 128)
              ∧ (224 + cp / 4096 - 224) * 4096 + (128 + cp / 64 % 64 - 128) * 64 + (128 + cp % 64 - 128) < 57344) := by
          omega
        refine ⟨224 + cp / 4096, [128 + cp / 64 % 64, 128 + cp % 64], ?_, ?_⟩
        · simp [utf8_encode_char, h1, h2, h3]
        · simp [utf8_step, e1, e2, e3, e4, ec2, ec3, hcond] <;> omega
      · have e1 : ¬ (240 + cp / 262144 < 128) := by omega
        have e2 : ¬ (240 + cp / 262144 < 194) := by omega
        have e3 : ¬ (240 + cp / 262144 < 224) := by omega
        have e4 : ¬ (240 + cp / 262144 < 240) := by omega
        have e5 : 240 + cp / 262144 < 245 := by omega
        have ec2 : is_cont (128 + cp / 4096 % 64) = true := by
          simp only [is_cont, Bool.and_eq_true, decide_eq_true_eq]
          omega
        have ec3 : is_cont (128 + cp / 64 % 64) = true := by
          simp only [is_cont, Bool.and_eq_true, decide_eq_true_eq]
          omega
        have ec4 : is_cont (128 + cp % 64) = true := by
          simp only [is_cont, Bool.and_eq_true, decide_eq_true_eq]
          omega
        have hcond : 65536 ≤ (240 + cp / 262144 - 240) * 262144 + (128 + cp / 4096 % 64 - 128) * 4096
              + (128 + cp / 64 % 64 - 128) * 64 + (128 + cp % 64 - 128)
            ∧ (240 + cp / 262144 - 240) * 262144 + (128 + cp / 4096 % 64 - 128) * 4096
              + (128 + cp / 64 % 64 - 128) * 64 + (128 + cp % 64 - 128) < 1114112 := by
          omega
        refine ⟨240 + cp / 262144, [128 + cp / 4096 % 64, 128 + cp / 64 % 64, 128 + cp % 64], ?_, ?_⟩
        · simp [utf8_encode_char, h1, h2, h3]
        · simp [utf8_step, e1, e2, e3, e4, e5, ec2, ec3, ec4, hcond] <;> omega

theorem utf8_decode_fuel_encode (cps : List Nat) : ∀ (fuel : Nat), cps.length ≤ fuel →
    (∀ cp ∈ cps, ValidCodepoint cp) → utf8_decode_fuel fuel (utf8_encode cps) = some cps := by
  induction cps with
  | nil =>
    intro fuel _ _
    cases fuel <;> rfl
  | cons c cs ih =>
    intro fuel hlen hval
    have hc := hval c (by simp)
    have hcs : ∀ x ∈ cs, ValidCodepoint x := fun x hx => hval x (by simp [hx])
    obtain ⟨b, btail, he, hs⟩ := utf8_step_encode_char c (utf8_encode cs) hc
    have henc : utf8_encode (c :: cs) = b :: (btail ++ utf8_encode cs) := by
      rw [show utf8_encode (c :: cs) = utf8_encode_char c ++ utf8_encode cs from by simp [utf8_encode], he]
      simp
    cases fuel with
    | zero => simp at hlen
    | succ f =>
      rw [henc]
      simp only [utf8_decode_fuel]
      rw [hs]
      dsimp only
      rw [ih f (by simp at hlen; omega) hcs]
      rfl

theorem utf8_encode_char_length_pos (cp : Nat) : 0 < (utf8_encode_char cp).length := by
  unfold utf8_encode_char
  by_cases h1 : cp < 128
  · simp [h1]
  · by_cases h2 : cp < 2048
    · simp [h1, h2]
    · by_cases h3 : cp < 65536 <;> simp [h1, h2, h3]

theorem utf8_encode_length_ge (cps : List Nat) : cps.length ≤ (utf8_encode cps).length := by
  induction cps with
  | nil => simp [utf8_encode]
  | cons c cs ih =>
    have hrw : utf8_encode (c :: cs) = utf8_encode_char c ++ utf8_encode cs := by
      simp [utf8_encode]
    rw [hrw]
    simp only [List.length_append, List.length_cons]
    have := utf8_encode_char_length_pos c
    omega

theorem utf8_decode_encode (cps : List Nat) (h : ∀ cp ∈ cps, ValidCodepoint cp) :
    utf8_decode (utf8_encode cps) = some cps :=
  utf8_decode_fuel_encode cps ((utf8_encode cps).length) (utf8_encode_length_ge cps) h

theorem utf8_encode_char_lt_256 (cp : Nat) (h : ValidCodepoint cp) : ∀ b ∈ utf8_encode_char cp, b < 256 := by
  obtain ⟨hlt, _⟩ := h
  intro b hb
  by_cases h1 : cp < 128
  · simp [utf8_encode_char, h1] at hb
    omega
  · by_cases h2 : cp < 2048
    · simp [utf8_encode_char, h1, h2] at hb
      rcases hb with h | h <;> omega
    · by_cases h3 : cp < 65536
      · simp [utf8_encode_char, h1, h2, h3] at hb
        rcases hb with h | h | h <;> omega
      · simp [utf8_encode_char, h1, h2, h3] at hb
        rcases hb with h | h | h | h <;> omega

theorem utf8_encode_lt_256 (cps : List Nat) (h : ∀ cp ∈ cps, ValidCodepoint cp) :
    ∀ b ∈ utf8_encode cps, b < 256 := by
  intro b hb
  simp only [utf8_encode, List.mem_flatten, List.mem_map] at hb
  obtain ⟨s, ⟨cp, hcp, rfl⟩, hbs⟩ := hb
  exact utf8_encode_char_lt_256 cp (h cp hcp) b hbs

/-- C1 counterexample: the claim states that acquisition caches a handle,
probes it with SELECT 1 and returns the cached handle when the probe succeeds.
In the code a second acquisition after a successful first one issues no SELECT 1
statement at all, creates a new connection, and returns a handle different from
the first, so the cached handle is neither probed nor returned. -/
theorem claim1_counterexample :
    get_databricks_connection cfgDemo 1 = (Except.ok 1, [Eff.sqlConnect 1])
    ∧ get_databricks_connection cfgDemo 2 = (Except.ok 2, [Eff.sqlConnect 2])
    ∧ Eff.sqlExec (pStr "SELECT 1") ∉ (get_databricks_connection cfgDemo 2).2
    ∧ (get_databricks_connection cfgDemo 2).1 ≠ Except.ok 1 := by
  decide

/-- C1 amended: the SQL connection acquisition operation performs no caching
and no liveness probe. Every call first validates the three configuration
values, raising a missing-configuration ValueError when the check fails, and
otherwise creates and returns a fresh connection; no SQL statement is ever
issued by the acquisition itself. -/
theorem claim1_no_cache (cfg : Config) (fresh : Nat) :
    (pyTruthy cfg.databricks_host = true → pyTruthy cfg.databricks_token = true →
      pyTruthy cfg.databricks_http_path = true →
      get_databricks_connection cfg fresh = (Except.ok fresh, [Eff.sqlConnect fresh]))
    ∧ (¬(pyTruthy cfg.databricks_host = true ∧ pyTruthy cfg.databricks_token = true ∧
        pyTruthy cfg.databricks_http_path = true) →
      get_databricks_connection cfg fresh = (Except.error missing_conn_msg, []))
    ∧ ∀ s, Eff.sqlExec s ∉ (get_databricks_connection cfg fresh).2 := by
  refine ⟨?_, ?_, ?_⟩
  · intro h1 h2 h3
    simp [get_databricks_connection, h1, h2, h3]
  · intro hnot
    have hfalse : ¬ ((pyTruthy cfg.databricks_host && pyTruthy cfg.databricks_token
        && pyTruthy cfg.databricks_http_path) = true) := by
      simp only [Bool.and_eq_true]
      tauto
    simp [get_databricks_connection, hfalse]
  · intro s
    by_cases hcond : (pyTruthy cfg.databricks_host && pyTruthy cfg.databricks_token
        && pyTruthy cfg.databricks_http_path) = true
    · simp [get_databricks_connection, hcond]
    · simp [get_databricks_connection, hcond]

/-- Concrete instantiation of claim1_no_cache. -/
theorem claim1_no_cache_witness :
    get_databricks_connection cfgDemo 1 = (Except.ok 1, [Eff.sqlConnect 1])
    ∧ get_databricks_connection cfgNone 1 = (Except.error missing_conn_msg, [])
    ∧ Eff.sqlExec (pStr "SELECT 1") ∉ (get_databricks_connection cfgDemo 1).2 :=
  ⟨(claim1_no_cache cfgDemo 1).1 (by decide) (by decide) (by decide),
   (claim1_no_cache cfgNone 1).2.1 (by decide),
   (claim1_no_cache cfgDemo 1).2.2 (pStr "SELECT 1")⟩

/-- C2 counterexample: with all three configuration values absent, the two
handlers that depend on all three of them (run_sql_query and get_schema) do not
return a configuration-error string; the missing-configuration ValueError
escapes as an uncaught exception because the connection is acquired before the
try block. They do perform no network or SQL call. -/
theorem claim2_counterexample :
    raises_exception (run_sql_query cfgNone (pStr "SELECT 1") 1 (Except.ok ⟨[], []⟩)).1 = true
    ∧ (run_sql_query cfgNone (pStr "SELECT 1") 1 (Except.ok ⟨[], []⟩)).2 = []
    ∧ raises_exception (get_schema cfgNone 1 (Except.ok [])).1 = true
    ∧ (get_schema cfgNone 1 (Except.ok [])).2 = [] := by
  decide

/-- C2 amended: the two handlers that depend on all three configuration values
(the SQL query tool and the schema resource) raise the missing-configuration
ValueError when the three values are absent: the exception escapes to the host
instead of being returned as a string, and no network or SQL call is performed
before it is raised. -/
theorem claim2_sql_handlers_raise (sql : PyStr) (fresh : Nat) (qres : Except PyStr QueryResult)
    (tres : Except PyStr (List TableRow)) (cfg : Config)
    (h1 : pyTruthy cfg.databricks_host = false) :
    run_sql_query cfg sql fresh qres = (Except.error missing_conn_msg, [])
    ∧ get_schema cfg fresh tres = (Except.error missing_conn_msg, []) := by
  have hconn : get_databricks_connection cfg fresh = (Except.error missing_conn_msg, []) := by
    simp [get_databricks_connection, h1]
  constructor
  · simp [run_sql_query, hconn]
  · simp [get_schema, hconn]

/-- Concrete instantiation of claim2_sql_handlers_raise. -/
theorem claim2_sql_handlers_raise_witness :
    run_sql_query cfgNone (pStr "SELECT 1") 1 (Except.ok ⟨[], []⟩) = (Except.error missing_conn_msg, [])
    ∧ get_schema cfgNone 1 (Except.ok []) = (Except.error missing_conn_msg, []) :=
  claim2_sql_handlers_raise (pStr "SELECT 1") 1 (Except.ok ⟨[], []⟩) (Except.ok []) cfgNone (by decide)

/-- C4: with truthy configuration, a query result carrying nonempty column
metadata and zero rows makes run_sql_query return the literal no-results
sentinel rather than a header-and-separator table. -/
theorem claim4_zero_rows_sentinel (a : Char) (as : PyStr) (b : Char) (bs : PyStr) (c : Char)
    (cs : PyStr) (sql : PyStr) (fresh : Nat) (col : PyStr) (cols : List PyStr) :
    run_sql_query ⟨some (a :: as), some (b :: bs), some (c :: cs)⟩ sql fresh
        (Except.ok ⟨col :: cols, []⟩)
      = (Except.ok no_results_msg, [Eff.sqlConnect fresh, Eff.sqlExec sql, Eff.sqlClose fresh]) := by
  simp [run_sql_query, get_databricks_connection, pyTruthy]

/-- C10: whenever the configuration check passes (so the connection is
created), both run_sql_query and get_schema produce exactly the effect trace
connect, body statement, close - for every oracle outcome, success or raised
exception alike - and in particular close the connection exactly once. -/
theorem claim10_close_exactly_once (a : Char) (as : PyStr) (b : Char) (bs : PyStr) (c : Char)
    (cs : PyStr) (sql : PyStr) (fresh : Nat) (qres : Except PyStr QueryResult)
    (tres : Except PyStr (List TableRow)) :
    (run_sql_query ⟨some (a :: as), some (b :: bs), some (c :: cs)⟩ sql fresh qres).2
        = [Eff.sqlConnect fresh, Eff.sqlExec sql, Eff.sqlClose fresh]
    ∧ (get_schema ⟨some (a :: as), some (b :: bs), some (c :: cs)⟩ fresh tres).2
        = [Eff.sqlConnect fresh, Eff.sqlTables, Eff.sqlClose fresh]
    ∧ List.count (Eff.sqlClose fresh) [Eff.sqlConnect fresh, Eff.sqlExec sql, Eff.sqlClose fresh] = 1
    ∧ List.count (Eff.sqlClose fresh) [Eff.sqlConnect fresh, Eff.sqlTables, Eff.sqlClose fresh] = 1 := by
  refine ⟨?_, ?_, ?_, ?_⟩
  · simp [run_sql_query, get_databricks_connection, pyTruthy]
  · simp [get_schema, get_databricks_connection, pyTruthy]
  · simp [List.count_cons]
  · simp [List.count_cons]

theorem table_lines (desc : List PyStr) (rows : List (List PyStr))
    (hd : ∀ p ∈ desc, '\n' ∉ p)
    (hr : ∀ r ∈ rows, ∀ cell ∈ r, '\n' ∉ cell) :
    pySplitLines (md_row desc ++ md_row (desc.map fun _ => pStr "---") ++ (rows.map md_row).flatten)
      = md_cells desc :: md_cells (desc.map fun _ => pStr "---") :: rows.map md_cells := by
  have hmap : rows.map md_row = rows.map (fun r => md_cells r ++ pStr "\n") := rfl
  have hflat : md_row desc ++ md_row (desc.map fun _ => pStr "---") ++ (rows.map md_row).flatten
      = (((desc :: (desc.map fun _ => pStr "---") :: rows).map (fun r => md_cells r ++ pStr "\n")).flatten) := by
    rw [hmap]
    simp [md_row, List.flatten_cons]
  have hmm : (((desc :: (desc.map fun _ => pStr "---") :: rows).map (fun r => md_cells r ++ pStr "\n")).flatten)
      = ((((desc :: (desc.map fun _ => pStr "---") :: rows).map md_cells).map (fun l => l ++ pStr "\n")).flatten) := by
    rw [List.map_map]
    rfl
  have hno : ∀ r ∈ (desc :: (desc.map fun _ => pStr "---") :: rows).map md_cells, '\n' ∉ r := by
    intro r hrm
    simp only [List.mem_map, List.mem_cons] at hrm
    obtain ⟨x, hx, rfl⟩ := hrm
    rcases hx with rfl | rfl | hx
    · exact newline_not_mem_md_cells _ hd
    · apply newline_not_mem_md_cells
      intro p hp
      simp only [List.mem_map] at hp
      obtain ⟨q, _, rfl⟩ := hp
      decide
    · exact newline_not_mem_md_cells _ (hr x hx)
  rw [hflat, hmm, pySplitLines_flatten _ hno]
  simp

/-- C3 counterexample: a one-row, one-column result whose single rendered cell
contains a newline character makes run_sql_query return a table with four
splitlines lines instead of the claimed N + 2 = 3: the code never escapes cell
contents. -/
theorem claim3_counterexample :
    (run_sql_query cfgDemo (pStr "q") 1 (Except.ok ⟨[pStr "c"], [[pStr "a\nb"]]⟩)).1
      = Except.ok (pStr "| c |\n| --- |\n| a\nb |\n")
    ∧ (pySplitLines (pStr "| c |\n| --- |\n| a\nb |\n")).length = 4
    ∧ (1 : Nat) + 2 ≠ 4 := by
  decide

/-- C3 amended: provided no column name and no rendered cell contains a newline
or a pipe character, a result with N rows (N at least 1) and M columns (M at
least 1, each row having M cells) is formatted by run_sql_query as a table with
exactly N + 2 splitlines lines, and every line carries exactly M pipe-delimited
cells, that is M + 1 pipe characters. -/
theorem claim3_table_shape (cfg : Config) (sql : PyStr) (fresh : Nat) (desc : List PyStr)
    (rows : List (List PyStr))
    (hcfg1 : pyTruthy cfg.databricks_host = true) (hcfg2 : pyTruthy cfg.databricks_token = true)
    (hcfg3 : pyTruthy cfg.databricks_http_path = true)
    (hdesc : desc ≠ []) (hrows : rows ≠ [])
    (hdclean : ∀ col ∈ desc, '\n' ∉ col ∧ '|' ∉ col)
    (hrlen : ∀ r ∈ rows, r.length = desc.length)
    (hrclean : ∀ r ∈ rows, ∀ cell ∈ r, '\n' ∉ cell ∧ '|' ∉ cell) :
    ∃ t, (run_sql_query cfg sql fresh (Except.ok ⟨desc, rows⟩)).1 = Except.ok t
      ∧ (pySplitLines t).length = rows.length + 2
      ∧ ∀ l ∈ pySplitLines t, l.count '|' = desc.length + 1 := by
  have hconn : get_databricks_connection cfg fresh = (Except.ok fresh, [Eff.sqlConnect fresh]) := by
    simp [get_databricks_connection, hcfg1, hcfg2, hcfg3]
  have hlines := table_lines desc rows (fun p hp => (hdclean p hp).1)
    (fun r hrm cell hc => (hrclean r hrm cell hc).1)
  refine ⟨md_row desc ++ md_row (desc.map fun _ => pStr "---") ++ (rows.map md_row).flatten, ?_, ?_, ?_⟩
  · obtain ⟨d0, dtl, rfl⟩ := List.exists_cons_of_ne_nil hdesc
    obtain ⟨r0, rtl, rfl⟩ := List.exists_cons_of_ne_nil hrows
    simp [run_sql_query, hconn]
  · rw [hlines]
    simp
  · intro l hl
    rw [hlines] at hl
    simp only [List.mem_cons, List.mem_map] at hl
    rcases hl with rfl | rfl | ⟨r, hrm, rfl⟩
    · exact md_cells_count_pipe desc hdesc (fun p hp => (hdclean p hp).2)
    · rw [md_cells_count_pipe]
      · simp
      · intro hnil
        exact hdesc (List.map_eq_nil_iff.mp hnil)
      · intro p hp
        simp only [List.mem_map] at hp
        obtain ⟨q, _, rfl⟩ := hp
        decide
    · rw [md_cells_count_pipe r ?_ (fun cell hc => (hrclean r hrm cell hc).2), hrlen r hrm]
      have hlen := hrlen r hrm
      have hpos : 0 < desc.length := List.length_pos.mpr hdesc
      intro hnil
      rw [hnil] at hlen
      simp at hlen
      omega

/-- Concrete instantiation of claim3_table_shape. -/
theorem claim3_table_shape_witness :
    ∃ t, (run_sql_query cfgDemo (pStr "q") 1
        (Except.ok ⟨[pStr "c1", pStr "c2"], [[pStr "a", pStr "b"], [pStr "d", pStr "e"]]⟩)).1 = Except.ok t
      ∧ (pySplitLines t).length = 2 + 2
      ∧ ∀ l ∈ pySplitLines t, l.count '|' = 2 + 1 := by
  have h := claim3_table_shape cfgDemo (pStr "q") 1 [pStr "c1", pStr "c2"]
    [[pStr "a", pStr "b"], [pStr "d", pStr "e"]]
    (by decide) (by decide) (by decide) (by decide) (by decide) (by decide) (by decide) (by decide)
  simpa using h

theorem raise_for_status_raises {α : Type} (resp : HttpResp α) (url : PyStr)
    (h1 : 400 ≤ resp.status) (h2 : resp.status < 600) :
    raises_exception (raise_for_status resp url) = true := by
  unfold raise_for_status
  by_cases hc : resp.status < 500
  · rw [if_pos ⟨h1, hc⟩]
    rfl
  · rw [if_neg (by omega), if_pos (by omega : 500 ≤ resp.status ∧ resp.status < 600)]
    rfl

theorem raise_for_status_ok {α : Type} (resp : HttpResp α) (url : PyStr)
    (h : resp.status < 400) :
    raise_for_status resp url = Except.ok resp.body := by
  unfold raise_for_status
  rw [if_neg (by omega), if_neg (by omega)]

/-- C5 counterexample: the method string given as lowercase get is a method
other than GET or POST, yet the adapter does not fail with the unsupported
method error; method.upper() makes it behave as GET and the call returns the
decoded body. -/
theorem claim5_counterexample :
    pStr "get" ≠ pStr "GET"
    ∧ pStr "get" ≠ pStr "POST"
    ∧ (databricks_api_request cfgDemo (pStr "jobs/list") (pStr "get")
        (Except.ok ⟨200, pStr "OK", (42 : Nat)⟩)).1 = Except.ok 42 := by
  decide

/-- C5 amended: the REST request adapter fails with a configuration error when
host or token is absent; fails with the unsupported-method error exactly when
the uppercased method is neither GET nor POST; and for methods uppercasing to
GET or POST it issues exactly one request without retrying, propagates raised
transport exceptions unchanged, raises for HTTP statuses 400 to 599, and
returns the decoded JSON body for any response with status below 400. -/
theorem claim5_api_request_contract {α : Type} (cfg : Config) (endpoint : PyStr) (method : PyStr)
    (tr : Except PyStr (HttpResp α)) :
    (¬(pyTruthy cfg.databricks_host = true ∧ pyTruthy cfg.databricks_token = true) →
      databricks_api_request cfg endpoint method tr = (Except.error missing_creds_msg, []))
    ∧ (pyTruthy cfg.databricks_host = true → pyTruthy cfg.databricks_token = true →
        pyUpper method ≠ pStr "GET" → pyUpper method ≠ pStr "POST" →
        databricks_api_request cfg endpoint method tr
          = (Except.error (pStr "Unsupported HTTP method: " ++ method), []))
    ∧ (pyTruthy cfg.databricks_host = true → pyTruthy cfg.databricks_token = true →
        pyUpper method = pStr "GET" →
        (databricks_api_request cfg endpoint method tr).2
            = [Eff.httpGet (pStr "https://" ++ cfg.databricks_host.getD [] ++ pStr "/api/2.0/" ++ endpoint)]
        ∧ (∀ e, tr = Except.error e → (databricks_api_request cfg endpoint method tr).1 = Except.error e)
        ∧ (∀ resp, tr = Except.ok resp → 400 ≤ resp.status → resp.status < 600 →
            raises_exception (databricks_api_request cfg endpoint method tr).1 = true)
        ∧ (∀ resp, tr = Except.ok resp → resp.status < 400 →
            (databricks_api_request cfg endpoint method tr).1 = Except.ok resp.body))
    ∧ (pyTruthy cfg.databricks_host = true → pyTruthy cfg.databricks_token = true →
        pyUpper method = pStr "POST" →
        (databricks_api_request cfg endpoint method tr).2
            = [Eff.httpPost (pStr "https://" ++ cfg.databricks_host.getD [] ++ pStr "/api/2.0/" ++ endpoint)]
        ∧ (∀ e, tr = Except.error e → (databricks_api_request cfg endpoint method tr).1 = Except.error e)
        ∧ (∀ resp, tr = Except.ok resp → 400 ≤ resp.status → resp.status < 600 →
            raises_exception (databricks_api_request cfg endpoint method tr).1 = true)
        ∧ (∀ resp, tr = Except.ok resp → resp.status < 400 →
            (databricks_api_request cfg endpoint method tr).1 = Except.ok resp.body)) := by
  refine ⟨?_, ?_, ?_, ?_⟩
  · intro hnot
    have hfalse : ¬((pyTruthy cfg.databricks_host && pyTruthy cfg.databricks_token) = true) := by
      simp only [Bool.and_eq_true]
      tauto
    simp [databricks_api_request, hfalse]
  · intro h1 h2 hg hp
    simp [databricks_api_request, h1, h2, hg, hp]
  · intro h1 h2 hg
    cases tr with
    | error e =>
      refine ⟨by simp [databricks_api_request, h1, h2, hg], ?_, ?_, ?_⟩
      · intro e2 he
        injection he with hee
        subst hee
        simp [databricks_api_request, h1, h2, hg]
      · intro resp hre
        simp at hre
      · intro resp hre
        simp at hre
    | ok resp =>
      have hred : (databricks_api_request cfg endpoint method (Except.ok resp)).1
          = raise_for_status resp (pStr "https://" ++ cfg.databricks_host.getD [] ++ pStr "/api/2.0/" ++ endpoint) := by
        simp [databricks_api_request, h1, h2, hg]
      refine ⟨by simp [databricks_api_request, h1, h2, hg], ?_, ?_, ?_⟩
      · intro e he
        simp at he
      · intro resp2 hre hs1 hs2
        injection hre with hee
        subst hee
        rw [hred, raise_for_status_raises resp _ hs1 hs2]
      · intro resp2 hre hs
        injection hre with hee
        subst hee
        rw [hred, raise_for_status_ok resp _ hs]
  · intro h1 h2 hp
    have hne : ¬(pStr "POST" = pStr "GET") := by decide
    cases tr with
    | error e =>
      refine ⟨by simp [databricks_api_request, h1, h2, hp, hne], ?_, ?_, ?_⟩
      · intro e2 he
        injection he with hee
        subst hee
        simp [databricks_api_request, h1, h2, hp, hne]
      · intro resp hre
        simp at hre
      · intro resp hre
        simp at hre
    | ok resp =>
      have hred : (databricks_api_request cfg endpoint method (Except.ok resp)).1
          = raise_for_status resp (pStr "https://" ++ cfg.databricks_host.getD [] ++ pStr "/api/2.0/" ++ endpoint) := by
        simp [databricks_api_request, h1, h2, hp, hne]
      refine ⟨by simp [databricks_api_request, h1, h2, hp, hne], ?_, ?_, ?_⟩
      · intro e he
        simp at he
      · intro resp2 hre hs1 hs2
        injection hre with hee
        subst hee
        rw [hred, raise_for_status_raises resp _ hs1 hs2]
      · intro resp2 hre hs
        injection hre with hee
        subst hee
        rw [hred, raise_for_status_ok resp _ hs]

/-- Concrete instantiation of claim5_api_request_contract. -/
theorem claim5_api_request_contract_witness :
    databricks_api_request cfgNone (pStr "jobs/list") (pStr "GET")
        (Except.ok ⟨200, pStr "OK", (0 : Nat)⟩) = (Except.error missing_creds_msg, [])
    ∧ databricks_api_request cfgDemo (pStr "jobs/list") (pStr "PUT")
        (Except.ok ⟨200, pStr "OK", (0 : Nat)⟩)
        = (Except.error (pStr "Unsupported HTTP method: " ++ pStr "PUT"), [])
    ∧ raises_exception (databricks_api_request cfgDemo (pStr "jobs/list") (pStr "GET")
        (Except.ok ⟨404, pStr "Not Found", (0 : Nat)⟩)).1 = true
    ∧ (databricks_api_request cfgDemo (pStr "jobs/list") (pStr "POST")
        (Except.ok ⟨200, pStr "OK", (7 : Nat)⟩)).1 = Except.ok 7 :=
  ⟨(claim5_api_request_contract cfgNone (pStr "jobs/list") (pStr "GET")
      (Except.ok ⟨200, pStr "OK", (0 : Nat)⟩)).1 (by decide),
   (claim5_api_request_contract cfgDemo (pStr "jobs/list") (pStr "PUT")
      (Except.ok ⟨200, pStr "OK", (0 : Nat)⟩)).2.1 (by decide) (by decide) (by decide) (by decide),
   ((claim5_api_request_contract cfgDemo (pStr "jobs/list") (pStr "GET")
      (Except.ok ⟨404, pStr "Not Found", (0 : Nat)⟩)).2.2.1 (by decide) (by decide)
        (by decide)).2.2.1 ⟨404, pStr "Not Found", (0 : Nat)⟩ rfl (by decide) (by decide),
   ((claim5_api_request_contract cfgDemo (pStr "jobs/list") (pStr "POST")
      (Except.ok ⟨200, pStr "OK", (7 : Nat)⟩)).2.2.2 (by decide) (by decide)
        (by decide)).2.2.2 ⟨200, pStr "OK", (7 : Nat)⟩ rfl (by decide)⟩

theorem pyUpper_GET : pyUpper (pStr "GET") = pStr "GET" := by decide

/-- C7: a jobs/get lookup answered with HTTP 404 Not Found makes
get_job_details return (the handler cannot raise: its whole body is inside
try/except) an error string that contains the words Not Found and ends with the
requested job identifier, which appears in the query parameter of the reported
URL. -/
theorem claim7_job_details_404 (a : Char) (as : PyStr) (b : Char) (bs : PyStr) (cpath : Option PyStr)
    (job_id : Int) (body : JobDetailsResp) (fmtTime : Nat → PyStr) :
    (get_job_details ⟨some (a :: as), some (b :: bs), cpath⟩ job_id
        (Except.ok ⟨404, pStr "Not Found", body⟩) fmtTime).1
      = pStr "Error getting job details: " ++ (natToPyStr 404 ++ pStr " Client Error: "
          ++ pStr "Not Found" ++ pStr " for url: "
          ++ (pStr "https://" ++ (a :: as) ++ pStr "/api/2.0/"
            ++ (pStr "jobs/get?job_id=" ++ pyIntRepr job_id)))
    ∧ (∃ pre, (get_job_details ⟨some (a :: as), some (b :: bs), cpath⟩ job_id
        (Except.ok ⟨404, pStr "Not Found", body⟩) fmtTime).1 = pre ++ pyIntRepr job_id)
    ∧ (∃ pre suf, (get_job_details ⟨some (a :: as), some (b :: bs), cpath⟩ job_id
        (Except.ok ⟨404, pStr "Not Found", body⟩) fmtTime).1 = pre ++ pStr "Not Found" ++ suf) := by
  have h404 : ∀ url : PyStr, raise_for_status (⟨404, pStr "Not Found", body⟩ : HttpResp JobDetailsResp) url
      = Except.error (natToPyStr 404 ++ pStr " Client Error: " ++ pStr "Not Found"
          ++ pStr " for url: " ++ url) := by
    intro url
    unfold raise_for_status
    rw [if_pos (by omega : 400 ≤ (404 : Nat) ∧ (404 : Nat) < 500)]
  have hmsg : (get_job_details ⟨some (a :: as), some (b :: bs), cpath⟩ job_id
        (Except.ok ⟨404, pStr "Not Found", body⟩) fmtTime).1
      = pStr "Error getting job details: " ++ (natToPyStr 404 ++ pStr " Client Error: "
          ++ pStr "Not Found" ++ pStr " for url: "
          ++ (pStr "https://" ++ (a :: as) ++ pStr "/api/2.0/"
            ++ (pStr "jobs/get?job_id=" ++ pyIntRepr job_id))) := by
    simp [get_job_details, databricks_api_request, pyUpper_GET, pyTruthy, h404,
      List.append_assoc]
  refine ⟨hmsg, ?_, ?_⟩
  · refine ⟨pStr "Error getting job details: " ++ (natToPyStr 404 ++ pStr " Client Error: "
      ++ pStr "Not Found" ++ pStr " for url: "
      ++ (pStr "https://" ++ (a :: as) ++ pStr "/api/2.0/" ++ pStr "jobs/get?job_id=")), ?_⟩
    rw [hmsg]
    simp [List.append_assoc]
  · refine ⟨pStr "Error getting job details: " ++ (natToPyStr 404 ++ pStr " Client Error: "),
      pStr " for url: " ++ (pStr "https://" ++ (a :: as) ++ pStr "/api/2.0/"
        ++ (pStr "jobs/get?job_id=" ++ pyIntRepr job_id)), ?_⟩
    rw [hmsg]
    simp [List.append_assoc]

theorem api_post_ok {α : Type} (cfg : Config) (endpoint : PyStr) (resp : HttpResp α)
    (h1 : pyTruthy cfg.databricks_host = true) (h2 : pyTruthy cfg.databricks_token = true)
    (hs : resp.status < 400) :
    databricks_api_request cfg endpoint (pStr "POST") (Except.ok resp)
      = (Except.ok resp.body,
        [Eff.httpPost (pStr "https://" ++ cfg.databricks_host.getD [] ++ pStr "/api/2.0/" ++ endpoint)]) := by
  have hne : ¬(pStr "POST" = pStr "GET") := by decide
  have hup : pyUpper (pStr "POST") = pStr "POST" := by decide
  simp [databricks_api_request, h1, h2, hup, hne, raise_for_status_ok _ _ hs, List.append_assoc]

/-- C8: each create handler (job, instance pool, catalog, schema), when its
remote POST succeeds (status below 400), returns the success message embedding
the identifier taken from the response when that identifier is present (truthy,
for job and pool ids), and the generic failure message when the identifier is
absent from the response. -/
theorem claim8_create_identifier_messages (cfg : Config)
    (h1 : pyTruthy cfg.databricks_host = true) (h2 : pyTruthy cfg.databricks_token = true) :
    (∀ (jname : PyStr) (c0 : Char) (cTl : PyStr) (n0 : Char) (nTl : PyStr)
        (resp : HttpResp CreateJobResp), resp.status < 400 →
      (∀ j : Int, resp.body.job_id = some j → j ≠ 0 →
        (create_job cfg jname (some (c0 :: cTl)) none (some (n0 :: nTl)) none none none none none none
          (Except.ok resp)).1
          = pStr "Job created successfully with job ID: " ++ pyIntRepr j
            ++ pStr "\n\nYou can view job details with: get_job_details(" ++ pyIntRepr j ++ pStr ")")
      ∧ (resp.body.job_id = none →
        (create_job cfg jname (some (c0 :: cTl)) none (some (n0 :: nTl)) none none none none none none
          (Except.ok resp)).1 = pStr "Job creation failed. No job ID returned."))
    ∧ (∀ (pname pnode : PyStr) (pmin pmax pidle : Int) (resp : HttpResp PoolResp), resp.status < 400 →
      (∀ (p0 : Char) (pTl : PyStr), resp.body.instance_pool_id = some (p0 :: pTl) →
        (create_instance_pool cfg pname pnode pmin pmax pidle none (Except.ok resp)).1
          = pStr "Instance pool created successfully with ID: " ++ (p0 :: pTl))
      ∧ (resp.body.instance_pool_id = none →
        (create_instance_pool cfg pname pnode pmin pmax pidle none (Except.ok resp)).1
          = pStr "Instance pool creation failed. No pool ID returned."))
    ∧ (∀ (cname : PyStr) (resp : HttpResp CatalogResp), resp.status < 400 →
      (resp.body.name = some cname →
        (create_catalog cfg cname none none (Except.ok resp)).1
          = pStr "Catalog \x27" ++ cname ++ pStr "\x27 was created successfully.")
      ∧ (resp.body.name = none →
        (create_catalog cfg cname none none (Except.ok resp)).1
          = pStr "Catalog creation might have failed. Please check with list_catalogs()."))
    ∧ (∀ (cat sn : PyStr) (resp : HttpResp SchemaResp), resp.status < 400 →
      (resp.body.name = some sn → resp.body.catalog_name = some cat →
        (create_schema cfg cat sn none none (Except.ok resp)).1
          = pStr "Schema \x27" ++ cat ++ pStr "." ++ sn ++ pStr "\x27 was created successfully.")
      ∧ (resp.body.name = none →
        (create_schema cfg cat sn none none (Except.ok resp)).1
          = pStr "Schema creation might have failed. Please check using another Unity Catalog API call.")) := by
  refine ⟨?_, ?_, ?_, ?_⟩
  · intro jname c0 cTl n0 nTl resp hs
    have hok := api_post_ok cfg (pStr "jobs/create") resp h1 h2 hs
    constructor
    · intro j hj hjne
      simp [create_job, create_job_settings, pyTruthy, pyTruthyDict, pyTruthyInt, hok, hj, hjne,
        List.append_assoc]
    · intro hj
      simp [create_job, create_job_settings, pyTruthy, pyTruthyDict, pyTruthyInt, hok, hj]
  · intro pname pnode pmin pmax pidle resp hs
    have hok := api_post_ok cfg (pStr "instance-pools/create") resp h1 h2 hs
    constructor
    · intro p0 pTl hp
      simp [create_instance_pool, pyTruthy, pyTruthyList, hok, hp]
    · intro hp
      simp [create_instance_pool, pyTruthy, pyTruthyList, hok, hp]
  · intro cname resp hs
    have hok := api_post_ok cfg (pStr "unity-catalog/catalogs") resp h1 h2 hs
    constructor
    · intro hn
      simp [create_catalog, pyTruthy, pyTruthyDict, hok, hn]
    · intro hn
      simp [create_catalog, pyTruthy, pyTruthyDict, hok, hn]
  · intro cat sn resp hs
    have hok := api_post_ok cfg (pStr "unity-catalog/schemas") resp h1 h2 hs
    constructor
    · intro hn hc
      simp [create_schema, pyTruthy, pyTruthyDict, hok, hn, hc]
    · intro hn
      simp [create_schema, pyTruthy, pyTruthyDict, hok, hn]

/-- Concrete instantiation of claim8_create_identifier_messages. -/
theorem claim8_create_identifier_messages_witness :
    (create_job cfgDemo (pStr "j") (some ['c']) none (some ['n']) none none none none none none
        (Except.ok ⟨200, pStr "OK", ⟨some 42⟩⟩)).1
      = pStr "Job created successfully with job ID: " ++ pyIntRepr 42
        ++ pStr "\n\nYou can view job details with: get_job_details(" ++ pyIntRepr 42 ++ pStr ")"
    ∧ (create_instance_pool cfgDemo (pStr "p") (pStr "nt") 0 10 60 none
        (Except.ok ⟨200, pStr "OK", ⟨none⟩⟩)).1
      = pStr "Instance pool creation failed. No pool ID returned."
    ∧ (create_catalog cfgDemo (pStr "cat") none none (Except.ok ⟨200, pStr "OK", ⟨some (pStr "cat")⟩⟩)).1
      = pStr "Catalog \x27" ++ pStr "cat" ++ pStr "\x27 was created successfully."
    ∧ (create_schema cfgDemo (pStr "cat") (pStr "sch") none none
        (Except.ok ⟨200, pStr "OK", ⟨some (pStr "sch"), some (pStr "cat")⟩⟩)).1
      = pStr "Schema \x27" ++ pStr "cat" ++ pStr "." ++ pStr "sch" ++ pStr "\x27 was created successfully." :=
  ⟨((claim8_create_identifier_messages cfgDemo (by decide) (by decide)).1
      (pStr "j") 'c' [] 'n' [] ⟨200, pStr "OK", ⟨some 42⟩⟩ (by decide)).1 42 rfl (by decide),
   ((claim8_create_identifier_messages cfgDemo (by decide) (by decide)).2.1
      (pStr "p") (pStr "nt") 0 10 60 ⟨200, pStr "OK", ⟨none⟩⟩ (by decide)).2 rfl,
   ((claim8_create_identifier_messages cfgDemo (by decide) (by decide)).2.2.1
      (pStr "cat") ⟨200, pStr "OK", ⟨some (pStr "cat")⟩⟩ (by decide)).1 rfl,
   ((claim8_create_identifier_messages cfgDemo (by decide) (by decide)).2.2.2
      (pStr "cat") (pStr "sch") ⟨200, pStr "OK", ⟨some (pStr "sch"), some (pStr "cat")⟩⟩ (by decide)).1 rfl rfl⟩


theorem create_job_settings_notebook (name : PyStr) (cluster_id : Option PyStr)
    (new_cluster : Option PyDict) (notebook_path : Option PyStr) (spark_jar_task : Option PyDict)
    (spark_python_task : Option PyDict) (schedule : Option PyDict) (timeout_seconds : Option Int)
    (max_concurrent_runs : Option Int) (max_retries : Option Int)
    (hnp : pyTruthy notebook_path = true) :
    ∀ s, create_job_settings name cluster_id new_cluster notebook_path spark_jar_task
        spark_python_task schedule timeout_seconds max_concurrent_runs max_retries = Except.ok s →
      s.notebook_task = notebook_path ∧ s.spark_jar_task = none ∧ s.spark_python_task = none := by
  intro s hs
  by_cases hc1 : pyTruthy cluster_id = true
  · simp [create_job_settings, hc1, hnp] at hs
    subst hs
    simp [apply_ite JobSettings.notebook_task, apply_ite JobSettings.spark_jar_task,
      apply_ite JobSettings.spark_python_task]
  · by_cases hc2 : pyTruthyDict new_cluster = true
    · simp [create_job_settings, hc1, hc2, hnp] at hs
      subst hs
      simp [apply_ite JobSettings.notebook_task, apply_ite JobSettings.spark_jar_task,
        apply_ite JobSettings.spark_python_task]
    · simp [create_job_settings, hc1, hc2] at hs

theorem create_job_settings_jar (name : PyStr) (cluster_id : Option PyStr)
    (new_cluster : Option PyDict) (notebook_path : Option PyStr) (spark_jar_task : Option PyDict)
    (spark_python_task : Option PyDict) (schedule : Option PyDict) (timeout_seconds : Option Int)
    (max_concurrent_runs : Option Int) (max_retries : Option Int)
    (hnp : pyTruthy notebook_path = false) (hjar : pyTruthyDict spark_jar_task = true) :
    ∀ s, create_job_settings name cluster_id new_cluster notebook_path spark_jar_task
        spark_python_task schedule timeout_seconds max_concurrent_runs max_retries = Except.ok s →
      s.notebook_task = none ∧ s.spark_jar_task = spark_jar_task ∧ s.spark_python_task = none := by
  intro s hs
  by_cases hc1 : pyTruthy cluster_id = true
  · simp [create_job_settings, hc1, hnp, hjar] at hs
    subst hs
    simp [apply_ite JobSettings.notebook_task, apply_ite JobSettings.spark_jar_task,
      apply_ite JobSettings.spark_python_task]
  · by_cases hc2 : pyTruthyDict new_cluster = true
    · simp [create_job_settings, hc1, hc2, hnp, hjar] at hs
      subst hs
      simp [apply_ite JobSettings.notebook_task, apply_ite JobSettings.spark_jar_task,
        apply_ite JobSettings.spark_python_task]
    · simp [create_job_settings, hc1, hc2] at hs

theorem create_job_settings_python (name : PyStr) (cluster_id : Option PyStr)
    (new_cluster : Option PyDict) (notebook_path : Option PyStr) (spark_jar_task : Option PyDict)
    (spark_python_task : Option PyDict) (schedule : Option PyDict) (timeout_seconds : Option Int)
    (max_concurrent_runs : Option Int) (max_retries : Option Int)
    (hnp : pyTruthy notebook_path = false) (hjar : pyTruthyDict spark_jar_task = false)
    (hpy : pyTruthyDict spark_python_task = true) :
    ∀ s, create_job_settings name cluster_id new_cluster notebook_path spark_jar_task
        spark_python_task schedule timeout_seconds max_concurrent_runs max_retries = Except.ok s →
      s.notebook_task = none ∧ s.spark_jar_task = none ∧ s.spark_python_task = spark_python_task := by
  intro s hs
  by_cases hc1 : pyTruthy cluster_id = true
  · simp [create_job_settings, hc1, hnp, hjar, hpy] at hs
    subst hs
    simp [apply_ite JobSettings.notebook_task, apply_ite JobSettings.spark_jar_task,
      apply_ite JobSettings.spark_python_task]
  · by_cases hc2 : pyTruthyDict new_cluster = true
    · simp [create_job_settings, hc1, hc2, hnp, hjar, hpy] at hs
      subst hs
      simp [apply_ite JobSettings.notebook_task, apply_ite JobSettings.spark_jar_task,
        apply_ite JobSettings.spark_python_task]
    · simp [create_job_settings, hc1, hc2] at hs

theorem create_job_settings_no_task (name : PyStr) (cluster_id : Option PyStr)
    (new_cluster : Option PyDict) (notebook_path : Option PyStr) (spark_jar_task : Option PyDict)
    (spark_python_task : Option PyDict) (schedule : Option PyDict) (timeout_seconds : Option Int)
    (max_concurrent_runs : Option Int) (max_retries : Option Int)
    (hnp : pyTruthy notebook_path = false) (hjar : pyTruthyDict spark_jar_task = false)
    (hpy : pyTruthyDict spark_python_task = false) :
    create_job_settings name cluster_id new_cluster notebook_path spark_jar_task
        spark_python_task schedule timeout_seconds max_concurrent_runs max_retries = Except.error task_err_msg
    ∨ create_job_settings name cluster_id new_cluster notebook_path spark_jar_task
        spark_python_task schedule timeout_seconds max_concurrent_runs max_retries = Except.error cluster_err_msg := by
  by_cases hc1 : pyTruthy cluster_id = true
  · left
    simp [create_job_settings, hc1, hnp, hjar, hpy]
  · by_cases hc2 : pyTruthyDict new_cluster = true
    · left
      simp [create_job_settings, hc1, hc2, hnp, hjar, hpy]
    · right
      simp [create_job_settings, hc1, hc2]

theorem create_job_sent_eq (cfg : Config) (name : PyStr) (cluster_id : Option PyStr)
    (new_cluster : Option PyDict) (notebook_path : Option PyStr) (spark_jar_task : Option PyDict)
    (spark_python_task : Option PyDict) (schedule : Option PyDict) (timeout_seconds : Option Int)
    (max_concurrent_runs : Option Int) (max_retries : Option Int)
    (tr : Except PyStr (HttpResp CreateJobResp)) :
    (create_job cfg name cluster_id new_cluster notebook_path spark_jar_task spark_python_task
        schedule timeout_seconds max_concurrent_runs max_retries tr).2.2
      = match create_job_settings name cluster_id new_cluster notebook_path spark_jar_task
            spark_python_task schedule timeout_seconds max_concurrent_runs max_retries with
        | .error _ => none
        | .ok s => some { name := name, settings := s } := by
  cases hset : create_job_settings name cluster_id new_cluster notebook_path spark_jar_task
      spark_python_task schedule timeout_seconds max_concurrent_runs max_retries with
  | error msg => simp [create_job, hset]
  | ok s =>
    cases hapi : databricks_api_request cfg (pStr "jobs/create") (pStr "POST") tr with
    | mk res effs =>
      cases res with
      | error e => simp [create_job, hset, hapi]
      | ok resp =>
        by_cases hj : pyTruthyInt resp.job_id = true <;> simp [create_job, hset, hapi, hj]

theorem create_job_error_result (cfg : Config) (name : PyStr) (cluster_id : Option PyStr)
    (new_cluster : Option PyDict) (notebook_path : Option PyStr) (spark_jar_task : Option PyDict)
    (spark_python_task : Option PyDict) (schedule : Option PyDict) (timeout_seconds : Option Int)
    (max_concurrent_runs : Option Int) (max_retries : Option Int)
    (tr : Except PyStr (HttpResp CreateJobResp)) (msg : PyStr)
    (hset : create_job_settings name cluster_id new_cluster notebook_path spark_jar_task
        spark_python_task schedule timeout_seconds max_concurrent_runs max_retries = Except.error msg) :
    create_job cfg name cluster_id new_cluster notebook_path spark_jar_task spark_python_task
        schedule timeout_seconds max_concurrent_runs max_retries tr = (msg, [], none) := by
  simp [create_job, hset]

/-- C9: the create_job payload contains at most one task type, chosen with the
fixed precedence notebook_path, then spark_jar_task, then spark_python_task
(given meaning Python-truthy, so silently ignoring the others); and when none
of the three is given the handler returns an error message - the task error,
or the cluster error when no cluster was given either - with an empty effect
trace, so no API request is issued. -/
theorem claim9_task_precedence (cfg : Config) (name : PyStr) (cluster_id : Option PyStr)
    (new_cluster : Option PyDict) (notebook_path : Option PyStr) (spark_jar_task : Option PyDict)
    (spark_python_task : Option PyDict) (schedule : Option PyDict) (timeout_seconds : Option Int)
    (max_concurrent_runs : Option Int) (max_retries : Option Int)
    (tr : Except PyStr (HttpResp CreateJobResp)) :
    (pyTruthy notebook_path = true →
      ∀ r, (create_job cfg name cluster_id new_cluster notebook_path spark_jar_task spark_python_task
          schedule timeout_seconds max_concurrent_runs max_retries tr).2.2 = some r →
        r.settings.notebook_task = notebook_path ∧ r.settings.spark_jar_task = none
          ∧ r.settings.spark_python_task = none)
    ∧ (pyTruthy notebook_path = false → pyTruthyDict spark_jar_task = true →
      ∀ r, (create_job cfg name cluster_id new_cluster notebook_path spark_jar_task spark_python_task
          schedule timeout_seconds max_concurrent_runs max_retries tr).2.2 = some r →
        r.settings.notebook_task = none ∧ r.settings.spark_jar_task = spark_jar_task
          ∧ r.settings.spark_python_task = none)
    ∧ (pyTruthy notebook_path = false → pyTruthyDict spark_jar_task = false →
        pyTruthyDict spark_python_task = true →
      ∀ r, (create_job cfg name cluster_id new_cluster notebook_path spark_jar_task spark_python_task
          schedule timeout_seconds max_concurrent_runs max_retries tr).2.2 = some r →
        r.settings.notebook_task = none ∧ r.settings.spark_jar_task = none
          ∧ r.settings.spark_python_task = spark_python_task)
    ∧ (pyTruthy notebook_path = false → pyTruthyDict spark_jar_task = false →
        pyTruthyDict spark_python_task = false →
      create_job cfg name cluster_id new_cluster notebook_path spark_jar_task spark_python_task
          schedule timeout_seconds max_concurrent_runs max_retries tr = (task_err_msg, [], none)
      ∨ create_job cfg name cluster_id new_cluster notebook_path spark_jar_task spark_python_task
          schedule timeout_seconds max_concurrent_runs max_retries tr = (cluster_err_msg, [], none)) := by
  refine ⟨?_, ?_, ?_, ?_⟩
  · intro hnp r hr
    rw [create_job_sent_eq] at hr
    cases hset : create_job_settings name cluster_id new_cluster notebook_path spark_jar_task
        spark_python_task schedule timeout_seconds max_concurrent_runs max_retries with
    | error msg =>
      rw [hset] at hr
      simp at hr
    | ok s =>
      rw [hset] at hr
      simp only [Option.some.injEq] at hr
      subst hr
      simpa using create_job_settings_notebook name cluster_id new_cluster notebook_path
        spark_jar_task spark_python_task schedule timeout_seconds max_concurrent_runs
        max_retries hnp s hset
  · intro hnp hjar r hr
    rw [create_job_sent_eq] at hr
    cases hset : create_job_settings name cluster_id new_cluster notebook_path spark_jar_task
        spark_python_task schedule timeout_seconds max_concurrent_runs max_retries with
    | error msg =>
      rw [hset] at hr
      simp at hr
    | ok s =>
      rw [hset] at hr
      simp only [Option.some.injEq] at hr
      subst hr
      simpa using create_job_settings_jar name cluster_id new_cluster notebook_path
        spark_jar_task spark_python_task schedule timeout_seconds max_concurrent_runs
        max_retries hnp hjar s hset
  · intro hnp hjar hpy r hr
    rw [create_job_sent_eq] at hr
    cases hset : create_job_settings name cluster_id new_cluster notebook_path spark_jar_task
        spark_python_task schedule timeout_seconds max_concurrent_runs max_retries with
    | error msg =>
      rw [hset] at hr
      simp at hr
    | ok s =>
      rw [hset] at hr
      simp only [Option.some.injEq] at hr
      subst hr
      simpa using create_job_settings_python name cluster_id new_cluster notebook_path
        spark_jar_task spark_python_task schedule timeout_seconds max_concurrent_runs
        max_retries hnp hjar hpy s hset
  · intro hnp hjar hpy
    rcases create_job_settings_no_task name cluster_id new_cluster notebook_path spark_jar_task
        spark_python_task schedule timeout_seconds max_concurrent_runs max_retries hnp hjar hpy
      with h | h
    · left
      exact create_job_error_result cfg name cluster_id new_cluster notebook_path spark_jar_task
        spark_python_task schedule timeout_seconds max_concurrent_runs max_retries tr _ h
    · right
      exact create_job_error_result cfg name cluster_id new_cluster notebook_path spark_jar_task
        spark_python_task schedule timeout_seconds max_concurrent_runs max_retries tr _ h

/-- Concrete instantiation of claim9_task_precedence. -/
theorem claim9_task_precedence_witness :
    (({ name := pStr "j", settings := { name := pStr "j", existing_cluster_id := some ['c'], notebook_task := some ['n'] } } : CreateJobRequest).settings.notebook_task = some ['n']
      ∧ ({ name := pStr "j", settings := { name := pStr "j", existing_cluster_id := some ['c'], notebook_task := some ['n'] } } : CreateJobRequest).settings.spark_jar_task = none
      ∧ ({ name := pStr "j", settings := { name := pStr "j", existing_cluster_id := some ['c'], notebook_task := some ['n'] } } : CreateJobRequest).settings.spark_python_task = none)
    ∧ (create_job cfgDemo (pStr "j") (some ['c']) none none none none none none none none
          (Except.ok ⟨200, pStr "OK", ⟨some 42⟩⟩) = (task_err_msg, [], none)
      ∨ create_job cfgDemo (pStr "j") (some ['c']) none none none none none none none none
          (Except.ok ⟨200, pStr "OK", ⟨some 42⟩⟩) = (cluster_err_msg, [], none)) :=
  ⟨(claim9_task_precedence cfgDemo (pStr "j") (some ['c']) none (some ['n']) none none none none
      none none (Except.ok ⟨200, pStr "OK", ⟨some 42⟩⟩)).1 (by decide)
      { name := pStr "j", settings := { name := pStr "j", existing_cluster_id := some ['c'], notebook_task := some ['n'] } } (by decide),
   (claim9_task_precedence cfgDemo (pStr "j") (some ['c']) none none none none none none
      none none (Except.ok ⟨200, pStr "OK", ⟨some 42⟩⟩)).2.2.2 (by decide) (by decide) (by decide)⟩

/-- C6: uploading string content C (a list of valid Unicode code points) to a
DBFS path and immediately reading the path back - with credentials present, the
three upload calls answered with success statuses and a truthy handle, the
remote store keeping the bytes decoded from the add-block payload, and the read
length bound covering the content - sends exactly the base64 rendering of the
UTF-8 bytes of C, reports upload success, and the read handler returns the
file-contents message built from exactly the original content, byte for byte. -/
theorem claim6_dbfs_roundtrip (cfg : Config) (content : List Nat) (path : PyStr) (overwrite : Bool)
    (length : Nat) (cresp : HttpResp CreateFileResp) (aresp clresp : HttpResp Unit)
    (h1 : pyTruthy cfg.databricks_host = true) (h2 : pyTruthy cfg.databricks_token = true)
    (hvalid : ∀ cp ∈ content, ValidCodepoint cp)
    (hlen : (utf8_encode content).length ≤ length)
    (hcs : cresp.status < 400) (hhandle : pyTruthyNat cresp.body.handle = true)
    (has : aresp.status < 400) (hcls : clresp.status < 400) :
    (upload_to_dbfs cfg content path overwrite (Except.ok cresp) (Except.ok aresp)
        (Except.ok clresp)).2.2 = some (b64encode (utf8_encode content))
    ∧ (upload_to_dbfs cfg content path overwrite (Except.ok cresp) (Except.ok aresp)
        (Except.ok clresp)).1
      = pStr "Successfully uploaded content to " ++ path
        ++ pStr ".\n\nYou can view the file with: read_dbfs_file(\x27" ++ path ++ pStr "\x27)"
    ∧ (read_dbfs_file cfg path length
        (dbfs_read_response_for (b64encode (utf8_encode content)) length)).1
      = pStr "## File Contents: " ++ path ++ pStr "\n\n```\n"
        ++ content.map Char.ofNat ++ pStr "\n```" := by
  have hbytes : ∀ b ∈ utf8_encode content, b < 256 := utf8_encode_lt_256 content hvalid
  have hdec : b64decode (b64encode (utf8_encode content)) = some (utf8_encode content) :=
    b64decode_b64encode _ hbytes
  have htake : (utf8_encode content).take length = utf8_encode content :=
    List.take_of_length_le hlen
  have hread_resp : dbfs_read_response_for (b64encode (utf8_encode content)) length
      = Except.ok ⟨200, pStr "OK", ⟨some (b64encode (utf8_encode content))⟩⟩ := by
    simp [dbfs_read_response_for, hdec, htake]
  refine ⟨?_, ?_, ?_⟩
  · simp [upload_to_dbfs, h1, h2, raise_for_status_ok _ _ hcs, raise_for_status_ok _ _ has,
      raise_for_status_ok _ _ hcls, hhandle]
  · simp [upload_to_dbfs, h1, h2, raise_for_status_ok _ _ hcs, raise_for_status_ok _ _ has,
      raise_for_status_ok _ _ hcls, hhandle, List.append_assoc]
  · rw [hread_resp]
    have h200 : (200 : Nat) < 400 := by omega
    simp [read_dbfs_file, h1, h2,
      raise_for_status_ok (⟨200, pStr "OK", ⟨some (b64encode (utf8_encode content))⟩⟩ : HttpResp ReadResp) _ h200,
      hdec, utf8_decode_encode content hvalid, List.append_assoc]

/-- Concrete instantiation of claim6_dbfs_roundtrip, on content exercising the
one, two, three and four byte UTF-8 forms. -/
theorem claim6_dbfs_roundtrip_witness :
    (upload_to_dbfs cfgDemo [72, 233, 8364, 128512] ['f'] false
        (Except.ok ⟨200, pStr "OK", ⟨some 1⟩⟩) (Except.ok ⟨200, pStr "OK", ()⟩)
        (Except.ok ⟨200, pStr "OK", ()⟩)).2.2 = some (b64encode (utf8_encode [72, 233, 8364, 128512]))
    ∧ (upload_to_dbfs cfgDemo [72, 233, 8364, 128512] ['f'] false
        (Except.ok ⟨200, pStr "OK", ⟨some 1⟩⟩) (Except.ok ⟨200, pStr "OK", ()⟩)
        (Except.ok ⟨200, pStr "OK", ()⟩)).1
      = pStr "Successfully uploaded content to " ++ ['f']
        ++ pStr ".\n\nYou can view the file with: read_dbfs_file(\x27" ++ ['f'] ++ pStr "\x27)"
    ∧ (read_dbfs_file cfgDemo ['f'] 100
        (dbfs_read_response_for (b64encode (utf8_encode [72, 233, 8364, 128512])) 100)).1
      = pStr "## File Contents: " ++ ['f'] ++ pStr "\n\n```\n"
        ++ ([72, 233, 8364, 128512] : List Nat).map Char.ofNat ++ pStr "\n```" :=
  claim6_dbfs_roundtrip cfgDemo [72, 233, 8364, 128512] ['f'] false 100
    ⟨200, pStr "OK", ⟨some 1⟩⟩ ⟨200, pStr "OK", ()⟩ ⟨200, pStr "OK", ()⟩
    (by decide) (by decide) (by decide) (by decide) (by decide) (by decide) (by decide) (by decide)
